import Mathlib

/-!
Verification development for the Parallel Analyzer Orchestration &
Consolidation Engine of the SuicideDataCopilot repository
(`app_streamlit/fase3_evaluator`).

The Python source is shallowly embedded: a pandas `DataFrame` read from a
CSV becomes a `Table` (an ordered list of named columns over `CellValue`s,
with the default integer row index `0, 1, ...`), Python floats become `ℚ`,
fallible functions (those that `raise`) return `Except String _`, and the
wall clock (`datetime.now()` / `pd.Timestamp.now()`) is passed as an
explicit parameter wherever the source reads it.  Analysis timestamps that
are merely recorded in output dictionaries (`analysis_timestamp` fields)
are modelled out of the result records, except in the orchestrator's error
placeholder where the structure itself is under scrutiny.
-/

set_option maxRecDepth 10000

namespace SDC

/-- A cell of a table: absent (`NaN`/`None`), textual, or numeric.
Python's `int`/`float` cells are both embedded as `ℚ`; a value with
denominator 1 plays the role of an integer. -/
inductive CellValue where
  | null
  | str (s : String)
  | num (q : ℚ)
deriving DecidableEq, Repr

/-- Is this cell a string? -/
def CellValue.isStr : CellValue → Bool
  | .str _ => true
  | _ => false

/-- Is this cell absent (`pd.isna`)? -/
def CellValue.isNull : CellValue → Bool
  | .null => true
  | _ => false

/-- Model of `str(value)` as used by `.astype(str)`: strings unchanged,
integral numbers printed as integers; non-integral numbers are printed via
`ℚ`'s representation (a modelling choice — no analyzed property depends on
the rendering of non-integral numbers). -/
def CellValue.toStr : CellValue → String
  | .null => "nan"
  | .str s => s
  | .num q => if q.den = 1 then toString q.num else toString q

/-- A table: ordered named columns, each an ordered list of cells
(row index `i` is list position `i`). -/
abbrev Table := List (String × List CellValue)

/-- `df.columns` as a name list. -/
def Table.colNames (t : Table) : List String := t.map Prod.fst

/-- `len(df)` — the row count.  pandas keeps all columns the same length;
the first column's length stands for it. -/
def Table.nrows (t : Table) : ℕ :=
  match t with
  | [] => 0
  | c :: _ => c.2.length

/-- `df.empty`: true when either axis has length 0. -/
def Table.isEmpty (t : Table) : Bool :=
  t.length == 0 || t.nrows == 0

/-- `df[col]`: the first column with the given name (empty if absent). -/
def Table.col (t : Table) (name : String) : List CellValue :=
  ((t.find? (fun c => c.1 == name)).map Prod.snd).getD []

/-- `series.dropna()`. -/
def dropna (vs : List CellValue) : List CellValue :=
  vs.filter (fun v => !v.isNull)

/-- `series.dropna().astype(str)`. -/
def dropnaStr (vs : List CellValue) : List String :=
  (dropna vs).map CellValue.toStr

/-- Distinct values in first-occurrence order (the key order of a Python
dict built by insertion, and of `pandas.Series.unique`). -/
def distinctFirst {α : Type} [DecidableEq α] (xs : List α) : List α :=
  xs.foldl (fun acc v => if acc.contains v then acc else acc ++ [v]) []

/-- Number of occurrences of `v` in `xs`. -/
def countOcc {α : Type} [DecidableEq α] (xs : List α) (v : α) : ℕ :=
  (xs.filter (fun x => x == v)).length

/-- `series.value_counts()` without the sort: distinct values in
first-occurrence order with their multiplicities. -/
def valueCountsRaw {α : Type} [DecidableEq α] (vs : List α) : List (α × ℕ) :=
  (distinctFirst vs).map (fun v => (v, countOcc vs v))

/-- Stable insertion (for a descending sort by count): the new entry goes
after every entry with a strictly larger count and before the rest. -/
def insertByCountDesc {α : Type} (p : α × ℕ) : List (α × ℕ) → List (α × ℕ)
  | [] => [p]
  | q :: qs => if q.2 > p.2 then q :: insertByCountDesc p qs else p :: q :: qs

/-- `series.value_counts()`: sorted by count, descending — a stable
insertion sort, so ties keep first-occurrence order (pandas leaves tie
order unspecified; this is the model's choice). -/
def valueCounts {α : Type} [DecidableEq α] (vs : List α) : List (α × ℕ) :=
  (valueCountsRaw vs).foldr insertByCountDesc []

/-- Minimum of a rational list (`0` for the empty list). -/
def qMin : List ℚ → ℚ
  | [] => 0
  | q :: qs => qs.foldl min q

/-- Maximum of a rational list (`0` for the empty list). -/
def qMax : List ℚ → ℚ
  | [] => 0
  | q :: qs => qs.foldl max q

/-! ## String utilities (Python `str` operations and the regexes) -/

/-- `str.lower()`, covering ASCII and the accented Spanish letters the
source's patterns use. -/
def charLower (c : Char) : Char :=
  if c = 'Á' then 'á' else if c = 'É' then 'é' else if c = 'Í' then 'í'
  else if c = 'Ó' then 'ó' else if c = 'Ú' then 'ú' else if c = 'Ñ' then 'ñ'
  else c.toLower

/-- `s.lower()`. -/
def strLower (s : String) : String := String.mk (s.toList.map charLower)

/-- Lexicographic `<` on char lists (Python's `str.__lt__` by code
point). -/
def charListLt : List Char → List Char → Bool
  | [], [] => false
  | [], _ :: _ => true
  | _ :: _, [] => false
  | a :: as, b :: bs => if a = b then charListLt as bs else decide (a < b)

/-- Python's `<` on strings. -/
def strLtB (a b : String) : Bool := charListLt a.toList b.toList

/-- Does `xs` start with `ys`? -/
def listStartsWith : List Char → List Char → Bool
  | _, [] => true
  | [], _ :: _ => false
  | a :: as, b :: bs => a == b && listStartsWith as bs

/-- Python's `needle in hay` on strings (substring containment). -/
def strContainsSub (hay needle : String) : Bool :=
  (List.range (hay.toList.length + 1)).any
    (fun i => listStartsWith (hay.toList.drop i) needle.toList)

/-- Case-insensitive substring containment (`re.search(..., re.IGNORECASE)`
for a literal alternation). -/
def strContainsCI (hay needle : String) : Bool :=
  strContainsSub (strLower hay) (strLower needle)

/-- Uppercase letter of the name pattern class `[A-ZÁÉÍÓÚÑ]`. -/
def isUpperName (c : Char) : Bool :=
  ('A' ≤ c && c ≤ 'Z') || ['Á', 'É', 'Í', 'Ó', 'Ú', 'Ñ'].contains c

/-- Lowercase letter of the name pattern class `[a-záéíóúñ]`. -/
def isLowerName (c : Char) : Bool :=
  ('a' ≤ c && c ≤ 'z') || ['á', 'é', 'í', 'ó', 'ú', 'ñ'].contains c

/-- Consume one `[A-ZÁÉÍÓÚÑ][a-záéíóúñ]+` word; return the rest. -/
def chompNameWord : List Char → Option (List Char)
  | [] => none
  | c :: rest =>
    if isUpperName c then
      let ls := rest.takeWhile isLowerName
      if ls.isEmpty then none else some (rest.drop ls.length)
    else none

/-- After the first word of the person-name regex
`^[A-ZÁÉÍÓÚÑ][a-záéíóúñ]+(\s[A-ZÁÉÍÓÚÑ][a-záéíóúñ]+){1,3}$`:
recognise between 1 and `m` further `(\s word)` groups, ending the
string.  The recursion depth is bounded by `m`, so any `fuel > m` is
adequate; fuel is structural so the kernel can evaluate the function. -/
def nameGroups (m : ℕ) : ℕ → List Char → ℕ → Bool
  | _, [], k => 1 ≤ k && k ≤ m
  | 0, _ :: _, _ => false
  | fuel + 1, c :: rest, k =>
    if k ≥ m then false
    else if c.isWhitespace then
      match chompNameWord rest with
      | some rest2 => nameGroups m fuel rest2 (k + 1)
      | none => false
    else false

/-- Full match of the person-name pattern (`re.match` with a final `$`). -/
def matchPersonName (s : String) : Bool :=
  match chompNameWord s.toList with
  | some rest => nameGroups 3 4 rest 0
  | none => false

/-- Python's `str.split(sep)` on a character separator. -/
def splitOnChar (sep : Char) : List Char → List (List Char)
  | [] => [[]]
  | c :: rest =>
    let r := splitOnChar sep rest
    if c == sep then [] :: r
    else
      match r with
      | [] => [[c]]
      | g :: gs => (c :: g) :: gs

/-- Character class `[a-zA-Z0-9._%+-]` of the email pattern's local part. -/
def isEmailLocalChar (c : Char) : Bool :=
  c.isAlpha || c.isDigit || ['.', '_', '%', '+', '-'].contains c

/-- Character class `[a-zA-Z0-9.-]` of the email pattern's domain part. -/
def isEmailDomainChar (c : Char) : Bool :=
  c.isAlpha || c.isDigit || c == '.' || c == '-'

/-- Full match of `^[a-zA-Z0-9._%+-]+@[a-zA-Z0-9.-]+\.[a-zA-Z]{2,}$`:
exactly one `@`; non-empty local part over its class; a domain that splits
at its last dot into a non-empty prefix over the domain class and an
all-alphabetic suffix of length at least 2. -/
def matchEmail (s : String) : Bool :=
  match splitOnChar '@' s.toList with
  | [lpart, dpart] =>
    let sfx := (dpart.reverse.takeWhile (fun c => c != '.')).reverse
    let pre := dpart.take (dpart.length - (sfx.length + 1))
    !lpart.isEmpty && lpart.all isEmailLocalChar &&
    dpart.contains '.' && decide (sfx.length ≥ 2) && sfx.all Char.isAlpha &&
    !pre.isEmpty && pre.all isEmailDomainChar
  | _ => false

/-- Length of the longest run of consecutive digits. -/
def maxDigitRun (cs : List Char) : ℕ :=
  (cs.foldl (fun (p : ℕ × ℕ) c =>
    if c.isDigit then (max p.1 (p.2 + 1), p.2 + 1) else (p.1, 0)) (0, 0)).1

/-- `re.search(r'\d{9,15}', s)`: some run of at least 9 digits. -/
def hasNineDigitRun (s : String) : Bool :=
  decide (maxDigitRun s.toList ≥ 9)

/-- Remainders after consuming `k` digits with `lo ≤ k ≤ hi`
(the nondeterministic `\d{lo,hi}`). -/
def takeDigitsRange (cs : List Char) (lo hi : ℕ) : List (List Char) :=
  ((List.range (hi + 1)).filter (fun k => decide (lo ≤ k))).filterMap (fun k =>
    if (cs.take k).length = k ∧ (cs.take k).all Char.isDigit then some (cs.drop k)
    else none)

/-- Remainders after an optional single character of class `p` (`X?`). -/
def optChar (p : Char → Bool) (cs : List Char) : List (List Char) :=
  match cs with
  | c :: rest => if p c then [cs, rest] else [cs]
  | [] => [cs]

/-- The phone patterns' separator class `[\s-]`. -/
def isSepChar (c : Char) : Bool := c.isWhitespace || c == '-'

/-- Match `\+?\d{1,3}[\s-]?\(?\d{2,3}\)?[\s-]?\d{3,4}[\s-]?\d{3,4}` at the
head of `cs` (unanchored tail: anything may follow). -/
def matchPhone1At (cs : List Char) : Bool :=
  (optChar (fun c => c == '+') cs).any (fun r1 =>
  (takeDigitsRange r1 1 3).any (fun r2 =>
  (optChar isSepChar r2).any (fun r3 =>
  (optChar (fun c => c == '(') r3).any (fun r4 =>
  (takeDigitsRange r4 2 3).any (fun r5 =>
  (optChar (fun c => c == ')') r5).any (fun r6 =>
  (optChar isSepChar r6).any (fun r7 =>
  (takeDigitsRange r7 3 4).any (fun r8 =>
  (optChar isSepChar r8).any (fun r9 =>
  !(takeDigitsRange r9 3 4).isEmpty)))))))))

/-- `re.search` of the first phone pattern: a match starting anywhere. -/
def searchPhone1 (s : String) : Bool :=
  (List.range (s.toList.length + 1)).any (fun i => matchPhone1At (s.toList.drop i))

/-- Full match of the Spanish DNI pattern `^\d{8}[A-Z]$`. -/
def matchDNI (s : String) : Bool :=
  let cs := s.toList
  cs.length == 9 && (cs.take 8).all Char.isDigit &&
    (cs.drop 8).all (fun c => 'A' ≤ c && c ≤ 'Z')

/-- `[A-Z]`. -/
def isUpperAZ (c : Char) : Bool := 'A' ≤ c && c ≤ 'Z'

/-- `[A-Z0-9]`. -/
def isUpperAlnum (c : Char) : Bool := isUpperAZ c || c.isDigit

/-- Full match of `^[A-Z]{2}\d{2}[A-Z0-9]{4}\d{7}([A-Z0-9]?){0,16}$`:
fixed prefix of 15 classified characters, then up to 16 more `[A-Z0-9]`. -/
def matchIBAN (s : String) : Bool :=
  let cs := s.toList
  decide (15 ≤ cs.length) && decide (cs.length ≤ 31) &&
  (cs.take 2).all isUpperAZ &&
  ((cs.drop 2).take 2).all Char.isDigit &&
  ((cs.drop 4).take 4).all isUpperAlnum &&
  ((cs.drop 8).take 7).all Char.isDigit &&
  (cs.drop 15).all isUpperAlnum

/-- Full match of `^\d{4}[\s-]?\d{4}[\s-]?\d{4}[\s-]?\d{4,7}$`. -/
def matchCreditCard (s : String) : Bool :=
  let cs := s.toList
  (takeDigitsRange cs 4 4).any (fun r1 =>
  (optChar isSepChar r1).any (fun r2 =>
  (takeDigitsRange r2 4 4).any (fun r3 =>
  (optChar isSepChar r3).any (fun r4 =>
  (takeDigitsRange r4 4 4).any (fun r5 =>
  (optChar isSepChar r5).any (fun r6 =>
  (takeDigitsRange r6 4 7).any (fun r7 => r7.isEmpty)))))))

/-! ## Configuration (`config/settings.py`) -/

/-- `Settings.PII_RISK_THRESHOLD`. -/
def PII_RISK_THRESHOLD : ℚ := 5

/-- `Settings.PII_ENTITIES`, in declaration order. -/
def piiEntities : List String :=
  ["PERSON", "EMAIL_ADDRESS", "PHONE_NUMBER", "LOCATION", "ID_NUMBER",
   "IBAN_CODE", "CREDIT_CARD"]

/-- `PII_RISK_LEVELS`: level name with its `[min, max)` score range, in
dict insertion order. -/
def piiRiskLevels : List (String × ℚ × ℚ) :=
  [("bajo", 0, 3), ("moderado", 3, 5), ("alto", 5, 7), ("critico", 7, 10)]

/-- `Settings.ML_MIN_SAMPLES`. -/
def ML_MIN_SAMPLES : ℕ := 100

/-- `Settings.ML_MIN_FEATURES`. -/
def ML_MIN_FEATURES : ℕ := 5

/-- `Settings.ML_IMBALANCE_THRESHOLD`. -/
def ML_IMBALANCE_THRESHOLD : ℚ := 0.20

/-- `Settings.GEOSPATIAL_MIN_COVERAGE`. -/
def GEOSPATIAL_MIN_COVERAGE : ℚ := 0.70

/-- `Settings.GEOSPATIAL_MIN_POINTS`. -/
def GEOSPATIAL_MIN_POINTS : ℕ := 50

/-- `Settings.SEMANTIC_AGE_MIN`. -/
def SEMANTIC_AGE_MIN : ℕ := 0

/-- `Settings.SEMANTIC_AGE_MAX`. -/
def SEMANTIC_AGE_MAX : ℕ := 120

/-- `Settings.SEMANTIC_METHODS_STANDARD`. -/
def SEMANTIC_METHODS_STANDARD : List String :=
  ["ahorcamiento", "arma de fuego", "intoxicacion", "precipitacion",
   "arma blanca", "otro"]

/-- `Settings.COMPLETENESS_THRESHOLD`. -/
def COMPLETENESS_THRESHOLD : ℚ := 0.85

/-- `Settings.COMPLETENESS_CRITICAL_THRESHOLD`. -/
def COMPLETENESS_CRITICAL_THRESHOLD : ℚ := 0.70

/-- `CRITICAL_FIELDS_SUICIDE_DATA`. -/
def CRITICAL_FIELDS_SUICIDE_DATA : List String :=
  ["fecha", "edad", "sexo", "metodo", "municipio", "tipo_evento"]

/-! ## Anonymization (PII) analyzer (`analyzers/anonymization.py`) -/

/-- One detector hit: entity type, instance count, (possibly redacted)
examples, risk contribution and confidence. -/
structure PIIDetection where
  type : String
  count : ℕ
  examples : List String
  risk_score : ℚ
  confidence : String
deriving DecidableEq, Repr

/-- The all-zero miss result every detector falls back to. -/
def piiMiss (entityType : String) : PIIDetection :=
  { type := entityType, count := 0, examples := [], risk_score := 0,
    confidence := "baja" }

/-- `_detect_person_names`. -/
def detectPersonNames (series : List String) (columnName : String) : PIIDetection :=
  let keywords := ["nombre", "apellido", "paciente", "fallecido", "persona"]
  let colLower := strLower columnName
  if keywords.any (fun kw => strContainsSub colLower kw) then
    { type := "PERSON", count := series.length, examples := series.take 3,
      risk_score := 3, confidence := "alta" }
  else
    let hits := series.filter matchPersonName
    if (hits.length : ℚ) > (series.length : ℚ) * 0.3 then
      { type := "PERSON", count := hits.length, examples := hits.take 3,
        risk_score := 2.5, confidence := "media" }
    else piiMiss "PERSON"

/-- `_detect_emails`. -/
def detectEmails (series : List String) (_columnName : String) : PIIDetection :=
  let hits := series.filter matchEmail
  if hits.length > 0 then
    { type := "EMAIL_ADDRESS", count := hits.length,
      examples := hits.take 2, risk_score := 2, confidence := "alta" }
  else piiMiss "EMAIL_ADDRESS"

/-- `_detect_phones`: values matching both patterns are collected twice,
exactly as the source's `matches.extend(...)` per pattern does. -/
def detectPhones (series : List String) (_columnName : String) : PIIDetection :=
  let hits := series.filter searchPhone1 ++ series.filter hasNineDigitRun
  if hits.length > 0 then
    { type := "PHONE_NUMBER", count := hits.length,
      examples := hits.take 2, risk_score := 1.5, confidence := "media" }
  else piiMiss "PHONE_NUMBER"

/-- `_detect_addresses`. -/
def detectAddresses (series : List String) (columnName : String) : PIIDetection :=
  let keywords := ["direccion", "address", "domicilio", "calle"]
  let colLower := strLower columnName
  if keywords.any (fun kw => strContainsSub colLower kw) then
    let tokens := ["calle", "c/", "av.", "avenida", "nº", "piso", "planta", "puerta"]
    let detailed := series.filter (fun s => tokens.any (fun tk => strContainsCI s tk))
    if detailed.length > 0 then
      { type := "LOCATION", count := detailed.length,
        examples := detailed.take 2, risk_score := 2.5, confidence := "alta" }
    else piiMiss "LOCATION"
  else piiMiss "LOCATION"

/-- `_detect_id_numbers`. -/
def detectIdNumbers (series : List String) (columnName : String) : PIIDetection :=
  let keywords := ["dni", "rut", "cedula", "identificacion", "id"]
  let colLower := strLower columnName
  if keywords.any (fun kw => strContainsSub colLower kw) then
    { type := "ID_NUMBER", count := series.length, examples := series.take 2,
      risk_score := 3, confidence := "alta" }
  else
    let hits := series.filter matchDNI
    if hits.length > 0 then
      { type := "ID_NUMBER", count := hits.length, examples := hits.take 2,
        risk_score := 3, confidence := "alta" }
    else piiMiss "ID_NUMBER"

/-- `_detect_iban`. -/
def detectIban (series : List String) (_columnName : String) : PIIDetection :=
  let hits := series.filter matchIBAN
  if hits.length > 0 then
    { type := "IBAN_CODE", count := hits.length,
      examples := List.replicate (min 2 hits.length) "REDACTED",
      risk_score := 2.5, confidence := "alta" }
  else piiMiss "IBAN_CODE"

/-- `_detect_credit_cards`. -/
def detectCreditCards (series : List String) (_columnName : String) : PIIDetection :=
  let hits := series.filter matchCreditCard
  if hits.length > 0 then
    { type := "CREDIT_CARD", count := hits.length,
      examples := List.replicate (min 2 hits.length) "REDACTED",
      risk_score := 3, confidence := "media" }
  else piiMiss "CREDIT_CARD"

/-- The `detectors` dict of `_get_detector_function`. -/
def piiDetectors : List (String × (List String → String → PIIDetection)) :=
  [("PERSON", detectPersonNames),
   ("EMAIL_ADDRESS", detectEmails),
   ("PHONE_NUMBER", detectPhones),
   ("LOCATION", detectAddresses),
   ("ID_NUMBER", detectIdNumbers),
   ("IBAN_CODE", detectIban),
   ("CREDIT_CARD", detectCreditCards)]

/-- `_get_detector_function` composed with the call: `detectors.get(...)`,
`none` for an unknown entity type (the source then skips the entity). -/
def runDetector (entityType : String) (series : List String)
    (columnName : String) : Option PIIDetection :=
  ((piiDetectors.find? (fun p => p.1 == entityType)).map (fun p => p.2 series columnName))

/-- Result of `_analyze_column_pii`. -/
structure ColumnPII where
  has_pii : Bool
  entities : List PIIDetection
  column_risk_score : ℚ
deriving DecidableEq, Repr

/-- One step of the detector loop in `_analyze_column_pii`: run the
detector for one entity type and append its hit when `count > 0`. -/
def piiFoldStep (colData : List String) (columnName : String)
    (acc : List PIIDetection) (et : String) : List PIIDetection :=
  match runDetector et colData columnName with
  | some d => if d.count > 0 then acc ++ [d] else acc
  | none => acc

/-- `_analyze_column_pii`. -/
def analyzeColumnPii (columnName : String) (vals : List CellValue) : ColumnPII :=
  let colData := dropnaStr vals
  if colData.length = 0 then { has_pii := false, entities := [], column_risk_score := 0 }
  else
    let entities := piiEntities.foldl (piiFoldStep colData columnName) []
    { has_pii := !entities.isEmpty, entities := entities,
      column_risk_score := (entities.map PIIDetection.risk_score).sum }

/-- `_determine_risk_level`: first level whose `[min, max)` range contains
the score, defaulting to `"critico"`. -/
def determineRiskLevel (s : ℚ) : String :=
  ((piiRiskLevels.find? (fun e => decide (e.2.1 ≤ s ∧ s < e.2.2))).map Prod.fst).getD
    "critico"

/-- A prioritized recommendation, the shape every analyzer emits. -/
structure Recommendation where
  priority : String
  field : String
  issue : String
  action : String
  impact : String
deriving DecidableEq, Repr

/-- One entry of the analyzer's `entities_found` list. -/
structure PIIEntity where
  type : String
  column : String
  count : ℕ
  examples : List String
  risk_contribution : ℚ
deriving DecidableEq, Repr

/-- `_generate_anonymization_recommendations`. -/
def generateAnonymizationRecommendations (pii_detected : Bool) (risk_level : String)
    (entities_found : List PIIEntity) (columns_with_pii : List String) :
    List Recommendation :=
  if !pii_detected then
    [{ priority := "informacion", field := "general",
       issue := "No se detectó PII en la base de datos",
       action := "Mantener buenas prácticas de privacidad en registros futuros",
       impact := "Ninguno - La base cumple con estándares de privacidad" }]
  else
    let base : List Recommendation :=
      if risk_level == "critico" || risk_level == "alto" then
        [{ priority := "critica",
           field := String.intercalate ", " (columns_with_pii.take 3),
           issue := s!"Riesgo {risk_level} - PII detectada en {columns_with_pii.length} columnas",
           action := "ELIMINAR estas columnas inmediatamente o aplicar hash SHA-256 irreversible",
           impact := "Crítico - Violación de RGPD/LOPD, riesgo legal y ético" }]
      else []
    let high_risk := (entities_found.filter (fun e => decide (e.risk_contribution ≥ 2))).take 3
    base ++ high_risk.map (fun e =>
      let action :=
        if e.type == "PERSON" then
          -- the source's f-string interpolates Python's *builtin* `id`
          -- function here, so the rendered text contains its repr
          "Reemplazar nombres con IDs anonimizados: hash(nombre) o 'PERSONA_<built-in function id>'"
        else if e.type == "LOCATION" then
          "Agregar a nivel de municipio/región, eliminar direcciones exactas"
        else if e.type == "ID_NUMBER" then
          "Aplicar hash SHA-256 o eliminar columna si no es esencial"
        else if e.type == "EMAIL_ADDRESS" || e.type == "PHONE_NUMBER" then
          "Eliminar columna - no es necesaria para análisis epidemiológico"
        else "Eliminar o enmascarar datos sensibles"
      { priority := "alta", field := e.column,
        issue := s!"{e.count} instancias de {e.type}",
        action := action, impact := "Alto - Riesgo de re-identificación" })

/-- The `summary` block of the PII analyzer's result. -/
structure PIISummary where
  pii_detected : Bool
  risk_score : ℚ
  risk_level : String
  columns_with_pii_count : ℕ
  entity_types_found : ℕ
  total_pii_instances : ℕ
  requires_action : Bool
deriving DecidableEq, Repr

/-- The `risk_assessment` block of the PII analyzer's result. -/
structure RiskAssessment where
  score : ℚ
  level : String
  threshold : ℚ
  critical : Bool
deriving DecidableEq, Repr

/-- Full result of `analyze_anonymization`. -/
structure AnonymizationResult where
  summary : PIISummary
  entities_found : List PIIEntity
  columns_with_pii : List String
  risk_assessment : RiskAssessment
  recommendations : List Recommendation
deriving DecidableEq, Repr

/-- `analyze_anonymization`. -/
def analyzeAnonymization (df : Table) : Except String AnonymizationResult :=
  if df.isEmpty then .error "El DataFrame está vacío"
  else
    let colResults := df.map (fun c => (c.1, analyzeColumnPii c.1 c.2))
    let pii_detected := colResults.any (fun c => c.2.has_pii)
    let columns_with_pii := (colResults.filter (fun c => c.2.has_pii)).map Prod.fst
    let entities_found := (colResults.filter (fun c => c.2.has_pii)).flatMap (fun c =>
      c.2.entities.map (fun e =>
        { type := e.type, column := c.1, count := e.count,
          examples := e.examples.take 2, risk_contribution := e.risk_score }))
    let riskRaw :=
      (colResults.map (fun c => if c.2.has_pii then c.2.column_risk_score else 0)).sum
    let risk_score :=
      if df.length > 0 then min 10 (riskRaw / (df.length : ℚ) * 10) else riskRaw
    let risk_level := determineRiskLevel risk_score
    .ok
      { summary :=
          { pii_detected := pii_detected
            risk_score := risk_score
            risk_level := risk_level
            columns_with_pii_count := columns_with_pii.length
            entity_types_found := (distinctFirst (entities_found.map PIIEntity.type)).length
            total_pii_instances := (entities_found.map PIIEntity.count).sum
            requires_action := decide (risk_score ≥ PII_RISK_THRESHOLD) }
        entities_found := entities_found
        columns_with_pii := columns_with_pii
        risk_assessment :=
          { score := risk_score
            level := risk_level
            threshold := PII_RISK_THRESHOLD
            critical := decide (risk_score ≥ PII_RISK_THRESHOLD) }
        recommendations :=
          generateAnonymizationRecommendations pii_detected risk_level
            entities_found columns_with_pii }

/-- Per-column risk as the claims read it: the `column_risk_score` of
`_analyze_column_pii` — the sum of the column's entity risk contributions,
`0` for a column without PII. -/
def piiColumnRisk (name : String) (vals : List CellValue) : ℚ :=
  (analyzeColumnPii name vals).column_risk_score

/-- A one-column table whose column name contains `"id"` only as part of
the domain word `suicidio`. -/
def piiDemoTable : Table := [("suicidio", [CellValue.str "si", CellValue.str "no"])]

/-- A one-column table of person names. -/
def piiNombreTable : Table := [("nombre", [CellValue.str "Juan Perez"])]

/-! ## SHA-256 (model of `hashlib.sha256(...).hexdigest()`) -/

/-- Truncation to 32 bits. -/
def w32 (n : ℕ) : ℕ := n % 4294967296

/-- 32-bit right rotation. -/
def rotr32 (k n : ℕ) : ℕ := w32 ((n >>> k) ||| (n <<< (32 - k)))

/-- 32-bit complement. -/
def not32 (n : ℕ) : ℕ := n ^^^ 4294967295

/-- SHA-256 `Ch`. -/
def shaCh (x y z : ℕ) : ℕ := (x &&& y) ^^^ (not32 x &&& z)

/-- SHA-256 `Maj`. -/
def shaMaj (x y z : ℕ) : ℕ := (x &&& y) ^^^ (x &&& z) ^^^ (y &&& z)

/-- SHA-256 `Σ0`. -/
def shaS0 (x : ℕ) : ℕ := rotr32 2 x ^^^ rotr32 13 x ^^^ rotr32 22 x

/-- SHA-256 `Σ1`. -/
def shaS1 (x : ℕ) : ℕ := rotr32 6 x ^^^ rotr32 11 x ^^^ rotr32 25 x

/-- SHA-256 `σ0`. -/
def shas0 (x : ℕ) : ℕ := rotr32 7 x ^^^ rotr32 18 x ^^^ (x >>> 3)

/-- SHA-256 `σ1`. -/
def shas1 (x : ℕ) : ℕ := rotr32 17 x ^^^ rotr32 19 x ^^^ (x >>> 10)

/-- The SHA-256 round constants. -/
def sha256K : List ℕ :=
  [1116352408, 1899447441, 3049323471, 3921009573, 961987163, 1508970993,
   2453635748, 2870763221, 3624381080, 310598401, 607225278, 1426881987,
   1925078388, 2162078206, 2614888103, 3248222580, 3835390401, 4022224774,
   264347078, 604807628, 770255983, 1249150122, 1555081692, 1996064986,
   2554220882, 2821834349, 2952996808, 3210313671, 3336571891, 3584528711,
   113926993, 338241895, 666307205, 773529912, 1294757372, 1396182291,
   1695183700, 1986661051, 2177026350, 2456956037, 2730485921, 2820302411,
   3259730800, 3345764771, 3516065817, 3600352804, 4094571909, 275423344,
   430227734, 506948616, 659060556, 883997877, 958139571, 1322822218,
   1537002063, 1747873779, 1955562222, 2024104815, 2227730452, 2361852424,
   2428436474, 2756734187, 3204031479, 3329325298]

/-- The SHA-256 initial hash state. -/
def sha256H0 : List ℕ :=
  [1779033703, 3144134277, 1013904242, 2773480762,
   1359893119, 2600822924, 528734635, 1541459225]

/-- SHA-256 padding: `0x80`, zeros to 56 mod 64, then the 64-bit
big-endian bit length. -/
def sha256Pad (msg : List ℕ) : List ℕ :=
  let bitLen := 8 * msg.length
  let zeros := (64 - ((msg.length + 9) % 64)) % 64
  msg ++ [0x80] ++ List.replicate zeros 0 ++
    (List.range 8).map (fun i => (bitLen >>> (8 * (7 - i))) % 256)

/-- Split the padded message into 64-byte blocks.  Every step consumes at
least one element, so fuel equal to the list length is always adequate. -/
def chunks64F : ℕ → List ℕ → List (List ℕ)
  | _, [] => []
  | 0, _ :: _ => []
  | fuel + 1, x :: xs => (x :: xs).take 64 :: chunks64F fuel ((x :: xs).drop 64)

/-- Split the padded message into 64-byte blocks. -/
def chunks64 (l : List ℕ) : List (List ℕ) := chunks64F l.length l

/-- The 64-word message schedule of one block. -/
def sha256Schedule (block : List ℕ) : List ℕ :=
  let w16 := (List.range 16).map (fun i =>
    (block.getD (4 * i) 0 <<< 24) ||| (block.getD (4 * i + 1) 0 <<< 16) |||
    (block.getD (4 * i + 2) 0 <<< 8) ||| block.getD (4 * i + 3) 0)
  (List.range 48).foldl (fun w t =>
    w ++ [w32 (shas1 (w.getD (t + 14) 0) + w.getD (t + 9) 0 +
               shas0 (w.getD (t + 1) 0) + w.getD t 0)]) w16

/-- One compression round on the working state `[a,b,c,d,e,f,g,h]`. -/
def sha256Round (st : List ℕ) (kw : ℕ × ℕ) : List ℕ :=
  let a := st.getD 0 0
  let b := st.getD 1 0
  let c := st.getD 2 0
  let d := st.getD 3 0
  let e := st.getD 4 0
  let f := st.getD 5 0
  let g := st.getD 6 0
  let h := st.getD 7 0
  let t1 := h + shaS1 e + shaCh e f g + kw.1 + kw.2
  let t2 := shaS0 a + shaMaj a b c
  [w32 (t1 + t2), a, b, c, w32 (d + t1), e, f, g]

/-- Compress one 64-byte block into the hash state. -/
def sha256Compress (hstate : List ℕ) (block : List ℕ) : List ℕ :=
  let final := (sha256K.zip (sha256Schedule block)).foldl sha256Round hstate
  (hstate.zip final).map (fun p => w32 (p.1 + p.2))

/-- The eight 32-bit digest words of a byte message. -/
def sha256Words (msg : List ℕ) : List ℕ :=
  (chunks64 (sha256Pad msg)).foldl sha256Compress sha256H0

/-- Lowercase hex digit of a nibble. -/
def nibbleToHex : ℕ → Char
  | 0 => '0' | 1 => '1' | 2 => '2' | 3 => '3' | 4 => '4'
  | 5 => '5' | 6 => '6' | 7 => '7' | 8 => '8' | 9 => '9'
  | 10 => 'a' | 11 => 'b' | 12 => 'c' | 13 => 'd' | 14 => 'e' | 15 => 'f'
  | _ => '0'

/-- The 8 lowercase hex characters of one 32-bit word. -/
def word32Hex (w : ℕ) : List Char :=
  (List.range 8).map (fun i => nibbleToHex ((w >>> (28 - 4 * i)) % 16))

/-- `hashlib.sha256(bytes).hexdigest()` as a character list (64 chars). -/
def sha256HexChars (msg : List ℕ) : List Char :=
  (sha256Words msg).flatMap word32Hex

/-- UTF-8 encoding of one character (`str.encode('utf-8')`). -/
def utf8BytesChar (c : Char) : List ℕ :=
  let n := c.toNat
  if n < 0x80 then [n]
  else if n < 0x800 then [0xC0 ||| (n >>> 6), 0x80 ||| (n % 64)]
  else if n < 0x10000 then
    [0xE0 ||| (n >>> 12), 0x80 ||| ((n >>> 6) % 64), 0x80 ||| (n % 64)]
  else
    [0xF0 ||| (n >>> 18), 0x80 ||| ((n >>> 12) % 64),
     0x80 ||| ((n >>> 6) % 64), 0x80 ||| (n % 64)]

/-- UTF-8 encoding of a string. -/
def utf8Encode (s : String) : List ℕ := s.toList.flatMap utf8BytesChar

/-- `_hash_value`: SHA-256 hexdigest truncated to its first 16
characters. -/
def hashValue (value : String) : String :=
  String.mk ((sha256HexChars (utf8Encode value)).take 16)

/-- Is `c` a lowercase hexadecimal digit? -/
def isHexLowerChar (c : Char) : Bool :=
  ("0123456789abcdef".toList).contains c

/-! ## Anonymizer (`integration/anonymizer.py`) -/

/-- Python's whitespace-run `str.split()` (no separator argument).
Every step consumes at least one character, so fuel equal to the list
length is always adequate. -/
def splitWsF : ℕ → List Char → List (List Char)
  | _, [] => []
  | 0, _ :: _ => []
  | fuel + 1, c :: rest =>
    if c.isWhitespace then splitWsF fuel rest
    else
      let w := rest.takeWhile (fun x => !x.isWhitespace)
      (c :: w) :: splitWsF fuel (rest.drop w.length)

/-- Python's whitespace-run `str.split()`. -/
def splitWs (cs : List Char) : List (List Char) := splitWsF cs.length cs

/-- `_anonymize_names`. -/
def anonymizeNames (series : List CellValue) (strategy : String) :
    List CellValue × String :=
  if strategy == "hash" then
    (series.map (fun x => if !x.isNull then CellValue.str (hashValue x.toStr) else x),
     "hashed")
  else if strategy == "mask" then
    let uniqueNames := distinctFirst (dropna series)
    (series.map (fun x =>
      match uniqueNames.indexOf? x with
      | some i => CellValue.str ("PERSONA_" ++ toString (i + 1))
      | none => x), "masked")
  else
    (List.replicate series.length CellValue.null, "removed")

/-- `_anonymize_emails`. -/
def anonymizeEmails (series : List CellValue) : List CellValue × String :=
  (series.map (fun x =>
    if x.isNull then x
    else
      match splitOnChar '@' x.toStr.toList with
      | [_, domain] => CellValue.str ("usuario_anonimo@" ++ String.mk domain)
      | _ => CellValue.str "email_invalido"),
   "masked_preserving_domain")

/-- `_anonymize_phones`. -/
def anonymizePhones (series : List CellValue) : List CellValue × String :=
  (series.map (fun x =>
    if x.isNull then x
    else
      let ds := x.toStr.toList.filter Char.isDigit
      if ds.length ≥ 6 then
        CellValue.str (String.mk (ds.take 3 ++ List.replicate (ds.length - 3) 'X'))
      else CellValue.str "XXX"),
   "masked_partial")

/-- `_anonymize_addresses`. -/
def anonymizeAddresses (series : List CellValue) : List CellValue × String :=
  (series.map (fun x =>
    if x.isNull then x
    else
      let ws := splitWs x.toStr.toList
      if ws.length > 1 then CellValue.str (String.mk (ws.getLastD []))
      else CellValue.str "LOCALIDAD_ANONIMA"),
   "aggregated_to_municipality")

/-- `_anonymize_ids`. -/
def anonymizeIds (series : List CellValue) (strategy : String) :
    List CellValue × String :=
  if strategy == "hash" then
    (series.map (fun x => if !x.isNull then CellValue.str (hashValue x.toStr) else x),
     "hashed")
  else
    (List.replicate series.length CellValue.null, "removed")

/-- `_anonymize_generic`. -/
def anonymizeGeneric (series : List CellValue) (strategy : String) :
    List CellValue × String :=
  if strategy == "hash" then
    (series.map (fun x => if !x.isNull then CellValue.str (hashValue x.toStr) else x),
     "hashed")
  else
    (series.map (fun x => if !x.isNull then CellValue.str "[REDACTADO]" else x),
     "masked")

/-- `df_anon[col] = f(df_anon[col])`: replace the cells of column `col`. -/
def setCol (t : Table) (col : String) (newVals : List CellValue) : Table :=
  t.map (fun c => if c.1 == col then (c.1, newVals) else c)

/-- One iteration of the `for col in pii_columns` loop of
`anonymize_dataframe`. -/
def anonStep (strategy : String) (acc : Table × List (String × String))
    (col : String) : Table × List (String × String) :=
  match acc.1.find? (fun c => c.1 == col) with
  | none => acc
  | some entry =>
    let colLower := strLower col
    if ["nombre", "apellido", "person"].any (fun kw => strContainsSub colLower kw) then
      let r := anonymizeNames entry.2 strategy
      (setCol acc.1 col r.1, acc.2 ++ [(col, r.2)])
    else if ["email", "correo"].any (fun kw => strContainsSub colLower kw) then
      let r := anonymizeEmails entry.2
      (setCol acc.1 col r.1, acc.2 ++ [(col, r.2)])
    else if ["telefono", "phone"].any (fun kw => strContainsSub colLower kw) then
      let r := anonymizePhones entry.2
      (setCol acc.1 col r.1, acc.2 ++ [(col, r.2)])
    else if ["direccion", "address", "domicilio"].any (fun kw => strContainsSub colLower kw) then
      let r := anonymizeAddresses entry.2
      (setCol acc.1 col r.1, acc.2 ++ [(col, r.2)])
    else if ["dni", "rut", "cedula", "id"].any (fun kw => strContainsSub colLower kw) then
      let r := anonymizeIds entry.2 strategy
      (setCol acc.1 col r.1, acc.2 ++ [(col, r.2)])
    else
      if strategy == "remove" then
        (acc.1.filter (fun c => c.1 != col), acc.2 ++ [(col, "column_removed")])
      else
        let r := anonymizeGeneric entry.2 strategy
        (setCol acc.1 col r.1, acc.2 ++ [(col, r.2)])

/-- `anonymize_dataframe`: fold the per-column transformation over the
PII column list, starting from a copy of the input (the input itself is
never written). -/
def anonymizeDataframe (df : Table) (piiColumns : List String)
    (strategy : String) : Table × List (String × String) :=
  piiColumns.foldl (anonStep strategy) (df, [])

/-! ## Numeric and date coercions (`pd.to_numeric`, `pd.to_datetime`) -/

/-- Strip leading and trailing whitespace. -/
def trimWs (cs : List Char) : List Char :=
  ((cs.dropWhile Char.isWhitespace).reverse.dropWhile Char.isWhitespace).reverse

/-- `str.strip()`. -/
def strTrim (s : String) : String := String.mk (trimWs s.toList)

/-- Value of a digit string. -/
def digitsToNat (cs : List Char) : ℕ :=
  cs.foldl (fun acc c => 10 * acc + (c.toNat - 48)) 0

/-- Parse an unsigned decimal literal (`123`, `12.5`, `7.`). -/
def parseUnsigned (cs : List Char) : Option ℚ :=
  let ip := cs.takeWhile Char.isDigit
  let rest := cs.drop ip.length
  match rest with
  | [] => if ip.isEmpty then none else some (digitsToNat ip : ℚ)
  | '.' :: fr =>
    if fr.all Char.isDigit && !(ip.isEmpty && fr.isEmpty) then
      some ((digitsToNat ip : ℚ) + (digitsToNat fr : ℚ) / ((10 : ℚ) ^ fr.length))
    else none
  | _ => none

/-- Parse a signed decimal literal, tolerating surrounding whitespace. -/
def parseRat (s : String) : Option ℚ :=
  match trimWs s.toList with
  | [] => none
  | '-' :: rest => (parseUnsigned rest).map Neg.neg
  | '+' :: rest => parseUnsigned rest
  | cs => parseUnsigned cs

/-- `pd.to_numeric(..., errors='coerce')` on one cell: numbers pass
through, numeric strings parse, everything else coerces to `NaN`. -/
def toNumericCell (v : CellValue) : Option ℚ :=
  match v with
  | .null => none
  | .num q => some q
  | .str s => parseRat s

/-- A calendar date. -/
structure SDate where
  y : ℕ
  m : ℕ
  d : ℕ
deriving DecidableEq, Repr

/-- Days since the proleptic-Gregorian epoch shifted to 0000-03-01
(Hinnant's `days_from_civil` without the final epoch offset, which
cancels in every comparison and difference the source makes). -/
def sdateDays (dt : SDate) : ℕ :=
  let y := if dt.m ≤ 2 then dt.y - 1 else dt.y
  let era := y / 400
  let yoe := y - era * 400
  let mp := (dt.m + 9) % 12
  let doy := (153 * mp + 2) / 5 + dt.d - 1
  let doe := yoe * 365 + yoe / 4 - yoe / 100 + doy
  era * 146097 + doe

/-- Parse an ISO `YYYY-MM-DD` date string.  `pd.to_datetime(...,
errors='coerce')` accepts further formats; in the model every other
string coerces to `NaT`. -/
def parseDate (s : String) : Option SDate :=
  match splitOnChar '-' (trimWs s.toList) with
  | [ys, ms, ds] =>
    if ys.length == 4 && !ms.isEmpty && ms.length ≤ 2 && !ds.isEmpty && ds.length ≤ 2 &&
        ys.all Char.isDigit && ms.all Char.isDigit && ds.all Char.isDigit then
      let m := digitsToNat ms
      let d := digitsToNat ds
      if 1 ≤ m && m ≤ 12 && 1 ≤ d && d ≤ 31 then
        some ⟨digitsToNat ys, m, d⟩
      else none
    else none
  | _ => none

/-- `pd.to_datetime(..., errors='coerce')` on one cell (numeric cells are
out of the model's date scope and coerce to `NaT`). -/
def toDatetimeCell (v : CellValue) : Option SDate :=
  match v with
  | .str s => parseDate s
  | _ => none

/-- Python's `f"{x:.1f}"`, with exact half-up rounding standing in for
the float formatting (all formatted quantities in scope are non-negative
percentages). -/
def fmt1 (q : ℚ) : String :=
  let t := (⌊q * 10 + 1 / 2⌋).toNat
  toString (t / 10) ++ "." ++ toString (t % 10)

/-- Zero-pad to two digits. -/
def pad2 (n : ℕ) : String := if n < 10 then "0" ++ toString n else toString n

/-- Zero-pad to four digits. -/
def pad4 (n : ℕ) : String :=
  if n < 10 then "000" ++ toString n
  else if n < 100 then "00" ++ toString n
  else if n < 1000 then "0" ++ toString n
  else toString n

/-- `strftime('%Y-%m-%d')`. -/
def sdateFormat (dt : SDate) : String :=
  pad4 dt.y ++ "-" ++ pad2 dt.m ++ "-" ++ pad2 dt.d

/-! ## Semantic analyzer (`analyzers/semantic.py`) -/

/-- One invalid-age finding of `_analyze_age`. -/
structure AgeIssue where
  row : ℕ
  value : ℚ
  issue : String
  severity : String
deriving DecidableEq, Repr

/-- One date-incoherence finding of `_analyze_dates`. -/
structure DateIssue where
  row : ℕ
  columns : List String
  issue : String
  severity : String
deriving DecidableEq, Repr

/-- One non-standard-method finding of `_analyze_methods`. -/
structure MethodIssue where
  value : String
  count : ℕ
  suggestion : String
  severity : String
deriving DecidableEq, Repr

/-- One distribution finding of `_analyze_distributions` (the source's
`variable` key; `variable` is reserved in Lean). -/
structure DistIssue where
  var : String
  issue : String
  severity : String
deriving DecidableEq, Repr

/-- One finding of `_analyze_impossible_values`. -/
structure ImpossibleIssue where
  column : String
  issue : String
  severity : String
deriving DecidableEq, Repr

/-- The semantic analyzer's `summary`. -/
structure SemanticSummary where
  total_issues : ℕ
  critical_issues : ℕ
  score : ℚ
  quality_level : String
deriving DecidableEq, Repr

/-- Full result of `analyze_semantic`. -/
structure SemanticResult where
  summary : SemanticSummary
  edad_invalida : List AgeIssue
  fechas_incoherentes : List DateIssue
  metodos_no_estandarizados : List MethodIssue
  distribuciones_atipicas : List DistIssue
  valores_imposibles : List ImpossibleIssue
  recommendations : List Recommendation
deriving DecidableEq, Repr

/-- `_find_column`: first column whose lowercase name contains one of the
keywords. -/
def findColumn (df : Table) (keywords : List String) : Option String :=
  (df.find? (fun c => keywords.any (fun kw => strContainsSub (strLower c.1) kw))).map
    Prod.fst

/-- `_find_columns`: all columns whose lowercase name contains one of the
keywords. -/
def findColumns (df : Table) (keywords : List String) : List String :=
  (df.filter (fun c => keywords.any (fun kw => strContainsSub (strLower c.1) kw))).map
    Prod.fst

/-- `_analyze_age`: row-wise age checks against the configured bounds. -/
def analyzeAge (df : Table) (col : String) : List AgeIssue :=
  (((df.col col).map toNumericCell).enum).flatMap (fun p =>
    match p.2 with
    | none => []
    | some age =>
      if age < (SEMANTIC_AGE_MIN : ℚ) then
        [{ row := p.1, value := age, issue := "Edad negativa", severity := "critica" }]
      else if age > (SEMANTIC_AGE_MAX : ℚ) then
        [{ row := p.1, value := age,
           issue := s!"Edad superior a {SEMANTIC_AGE_MAX} años", severity := "critica" }]
      else if age > 100 then
        [{ row := p.1, value := age,
           issue := "Edad muy alta (>100 años) - verificar", severity := "advertencia" }]
      else [])

/-- `_check_birth_death_coherence`. -/
def checkBirthDeath (c1 c2 : String × List (Option SDate)) (nrows : ℕ) :
    List DateIssue :=
  let isB := strContainsSub (strLower c1.1) "nacimiento"
  let birth := if isB then c1 else c2
  let death := if isB then c2 else c1
  (List.range nrows).flatMap (fun i =>
    match birth.2.getD i none, death.2.getD i none with
    | some b, some d =>
      if sdateDays d < sdateDays b then
        [{ row := i, columns := [birth.1, death.1],
           issue := "Fecha de muerte anterior a fecha de nacimiento",
           severity := "critica" }]
      else []
    | _, _ => [])

/-- `_check_event_notification_coherence`. -/
def checkEventNotif (c1 c2 : String × List (Option SDate)) (nrows : ℕ) :
    List DateIssue :=
  let isE := strContainsSub (strLower c1.1) "evento"
  let event := if isE then c1 else c2
  let notif := if isE then c2 else c1
  (List.range nrows).flatMap (fun i =>
    match event.2.getD i none, notif.2.getD i none with
    | some e, some n =>
      if sdateDays n < sdateDays e then
        [{ row := i, columns := [event.1, notif.1],
           issue := "Notificación anterior al evento", severity := "alta" }]
      else if sdateDays n - sdateDays e > 180 then
        [{ row := i, columns := [event.1, notif.1],
           issue := s!"Notificación muy tardía ({sdateDays n - sdateDays e} días)",
           severity := "advertencia" }]
      else []
    | _, _ => [])

/-- `_analyze_dates`: pair coherence for `nacimiento`/`defuncion` and
`evento`/`notificacion` columns, then future dates relative to the
current moment (`pd.Timestamp.now()`), which the function reads from the
wall clock — here the explicit `today` parameter. -/
def analyzeDates (df : Table) (dateCols : List String) (today : SDate) :
    List DateIssue :=
  let dateData := dateCols.map (fun c => (c, (df.col c).map toDatetimeCell))
  if dateData.length < 2 then []
  else
    let pairIssues := dateData.flatMap (fun c1 =>
      dateData.flatMap (fun c2 =>
        if strLtB c1.1 c2.1 then
          if (strContainsSub (strLower c1.1) "nacimiento" &&
                strContainsSub (strLower c2.1) "defuncion") ||
             (strContainsSub (strLower c2.1) "defuncion" &&
                strContainsSub (strLower c1.1) "nacimiento") then
            checkBirthDeath c1 c2 df.nrows
          else if (strContainsSub (strLower c1.1) "evento" &&
                strContainsSub (strLower c2.1) "notificacion") ||
             (strContainsSub (strLower c2.1) "notificacion" &&
                strContainsSub (strLower c1.1) "evento") then
            checkEventNotif c1 c2 df.nrows
          else []
        else []))
    let futureIssues := dateData.flatMap (fun c =>
      (c.2.enum).flatMap (fun p =>
        match p.2 with
        | some dt =>
          if sdateDays dt > sdateDays today then
            [{ row := p.1, columns := [c.1],
               issue := s!"Fecha futura en '{c.1}': {sdateFormat dt}",
               severity := "alta" }]
          else []
        | none => []))
    pairIssues ++ futureIssues

/-- The `fuzzy_map` of `_analyze_methods`, in dict order. -/
def methodFuzzyMap : List (String × String) :=
  [("ahorcadura", "ahorcamiento"), ("colgamiento", "ahorcamiento"),
   ("arma fuego", "arma de fuego"), ("disparo", "arma de fuego"),
   ("envenenamiento", "intoxicacion"), ("sobredosis", "intoxicacion"),
   ("salto", "precipitacion"), ("caida", "precipitacion"),
   ("arma blanka", "arma blanca"), ("cuchillo", "arma blanca")]

/-- `_analyze_methods`. -/
def analyzeMethods (df : Table) (col : String) : List MethodIssue :=
  let methods := (dropnaStr (df.col col)).map (fun s => strTrim (strLower s))
  let uniqueMethods := valueCounts methods
  let standardMethods := SEMANTIC_METHODS_STANDARD.map strLower
  uniqueMethods.flatMap (fun mc =>
    let method := mc.1
    let isStd := standardMethods.contains method
    let fuzzySug :=
      if isStd then none
      else ((methodFuzzyMap.find? (fun fz =>
        strContainsSub method fz.1 || strContainsSub fz.1 method)).map Prod.snd)
    let sug :=
      match fuzzySug with
      | some s => some s
      | none =>
        if isStd then none
        else standardMethods.find? (fun std =>
          strContainsSub method std || strContainsSub std method)
    if isStd then []
    else
      [{ value := method, count := mc.2, suggestion := sug.getD "otro",
         severity := if mc.2 > 5 then "media" else "baja" }])

/-- pandas' linear-interpolation `Series.quantile`. -/
def quantileQ (xs : List ℚ) (q : ℚ) : ℚ :=
  let sorted := xs.mergeSort (fun a b => decide (a ≤ b))
  let n := sorted.length
  if n = 0 then 0
  else
    let pos := q * ((n : ℚ) - 1)
    let lo := (⌊pos⌋).toNat
    let frac := pos - (⌊pos⌋ : ℚ)
    sorted.getD lo 0 + frac * (sorted.getD (lo + 1) 0 - sorted.getD lo 0)

/-- `_analyze_distributions`. -/
def analyzeDistributions (df : Table) (edadCol : String)
    (sexoCol : Option String) : List DistIssue :=
  let ageSeries := ((df.col edadCol).map toNumericCell).filterMap id
  if ageSeries.length < 30 then []
  else
    let q1 := quantileQ ageSeries 0.25
    let q3 := quantileQ ageSeries 0.75
    let iqr := q3 - q1
    let lowerBound := q1 - 3 * iqr
    let upperBound := q3 + 3 * iqr
    let outliers := ageSeries.filter (fun a => decide (a < lowerBound) || decide (a > upperBound))
    let ageIssues :=
      if (outliers.length : ℚ) > (ageSeries.length : ℚ) * 0.05 then
        [{ var := edadCol,
           issue := s!"{outliers.length} outliers extremos en edad ({fmt1 ((outliers.length : ℚ) / (ageSeries.length : ℚ) * 100)}%)",
           severity := "advertencia" }]
      else []
    let sexIssues :=
      match sexoCol with
      | none => []
      | some sc =>
        let sexVals := dropna (df.col sc)
        let counts := valueCounts sexVals
        let total := sexVals.length
        let maxProp := qMax (counts.map (fun p => (p.2 : ℚ) / (total : ℚ)))
        if counts.length ≥ 2 && decide (maxProp > 0.95) then
          [{ var := sc,
             issue := s!"Distribución muy desequilibrada: {fmt1 (maxProp * 100)}% en una categoría",
             severity := "advertencia" }]
        else []
    ageIssues ++ sexIssues

/-- Is a column of numeric pandas dtype?  A CSV column is numeric when no
cell is textual (an all-null column is `float64`, hence numeric). -/
def isNumericDtypeCol (vs : List CellValue) : Bool :=
  vs.all (fun v => !v.isStr)

/-- `_analyze_impossible_values`. -/
def analyzeImpossibleValues (df : Table) : List ImpossibleIssue :=
  (df.filter (fun c => isNumericDtypeCol c.2)).flatMap (fun c =>
    if ["cantidad", "numero", "count", "total"].any
        (fun kw => strContainsSub (strLower c.1) kw) then
      let negativeCount := (c.2.filter (fun v =>
        match v with
        | .num q => decide (q < 0)
        | _ => false)).length
      if negativeCount > 0 then
        [{ column := c.1,
           issue := s!"{negativeCount} valores negativos en columna que debería ser positiva",
           severity := "media" }]
      else []
    else [])

/-- `_generate_semantic_summary`. -/
def generateSemanticSummary (edad : List AgeIssue) (fechas : List DateIssue)
    (metodos : List MethodIssue) (distribuciones : List DistIssue)
    (valores : List ImpossibleIssue) : SemanticSummary :=
  let total := edad.length + fechas.length + metodos.length +
    distribuciones.length + valores.length
  let critical := (edad.filter (fun x => x.severity == "critica")).length +
    (fechas.filter (fun x => x.severity == "critica")).length
  let score : ℚ := max 0 (100 - (critical : ℚ) * 10 - (total : ℚ) * 2)
  { total_issues := total, critical_issues := critical, score := score,
    quality_level :=
      if score > 90 then "excelente"
      else if score > 70 then "bueno"
      else if score > 50 then "aceptable"
      else "deficiente" }

/-- `_generate_semantic_recommendations`. -/
def generateSemanticRecommendations (edad : List AgeIssue)
    (fechas : List DateIssue) (metodos : List MethodIssue) :
    List Recommendation :=
  let r1 :=
    if !edad.isEmpty then
      let criticalAge := edad.filter (fun x => x.severity == "critica")
      if !criticalAge.isEmpty then
        [{ priority := "critica", field := "edad",
           issue := s!"{criticalAge.length} registros con edades imposibles",
           action := "Revisar y corregir edades negativas o superiores a 120 años",
           impact := "Alto - Invalida análisis demográficos" }]
      else []
    else []
  let r2 :=
    if !fechas.isEmpty then
      [{ priority := "alta", field := "fechas",
         issue := s!"{fechas.length} incoherencias temporales",
         action := "Validar secuencia lógica de fechas (nacimiento < muerte < notificación)",
         impact := "Alto - Genera errores en análisis temporales" }]
    else []
  let r3 :=
    if !metodos.isEmpty then
      [{ priority := "media", field := "metodo",
         issue := s!"{metodos.length} métodos sin estandarizar",
         action := "Mapear a códigos CIE-10 o lista estandarizada",
         impact := "Medio - Dificulta comparaciones y agregaciones" }]
    else []
  r1 ++ r2 ++ r3

/-- `analyze_semantic`: the current moment (`pd.Timestamp.now()`) is the
explicit `today` parameter. -/
def analyzeSemantic (df : Table) (today : SDate) : Except String SemanticResult :=
  if df.isEmpty then .error "El DataFrame está vacío"
  else
    let edadCol := findColumn df ["edad", "age"]
    let fechaCols := findColumns df ["fecha", "date"]
    let metodoCol := findColumn df ["metodo", "method", "medio"]
    let sexoCol := findColumn df ["sexo", "genero", "gender", "sex"]
    let edadInvalida := match edadCol with
      | some c => analyzeAge df c
      | none => []
    let fechasIncoherentes :=
      if fechaCols.length ≥ 1 then analyzeDates df fechaCols today else []
    let metodos := match metodoCol with
      | some c => analyzeMethods df c
      | none => []
    let distribuciones := match edadCol with
      | some c => analyzeDistributions df c sexoCol
      | none => []
    let valores := analyzeImpossibleValues df
    .ok
      { summary := generateSemanticSummary edadInvalida fechasIncoherentes
          metodos distribuciones valores
        edad_invalida := edadInvalida
        fechas_incoherentes := fechasIncoherentes
        metodos_no_estandarizados := metodos
        distribuciones_atipicas := distribuciones
        valores_imposibles := valores
        recommendations := generateSemanticRecommendations edadInvalida
          fechasIncoherentes metodos }

/-- Scenario A's table: one `edad` column holding `[-5, 34, 150, 45]`. -/
def edadDemoTable : Table :=
  [("edad", [CellValue.num (-5), CellValue.num 34, CellValue.num 150,
             CellValue.num 45])]

/-- An arbitrary fixed "now" used where a concrete clock reading is
needed. -/
def demoToday : SDate := ⟨2026, 10, 12⟩

/-- A table with two generic date columns holding the same future date. -/
def fechasDemoTable : Table :=
  [("fecha_a", [CellValue.str "2030-06-15"]),
   ("fecha_b", [CellValue.str "2030-06-15"])]

/-! ## Geospatial analyzer (`analyzers/geospatial.py`) -/

/-- One invalid-coordinate finding. -/
structure InvalidCoord where
  row : ℕ
  lat : ℚ
  lon : ℚ
  issue : String
deriving DecidableEq, Repr

/-- The coordinate bounding box. -/
structure BBox where
  min_lat : ℚ
  max_lat : ℚ
  min_lon : ℚ
  max_lon : ℚ
deriving DecidableEq, Repr

/-- Result of `_analyze_coordinates` (`columns` flattened into the two
column names). -/
structure CoordinatesAnalysis where
  lat_col : String
  lon_col : String
  total_records : ℕ
  valid_pairs : ℕ
  coverage : ℚ
  invalid_coords : List InvalidCoord
  bounding_box : Option BBox
deriving DecidableEq, Repr

/-- Result of `_analyze_addresses`. -/
structure AddressAnalysis where
  column : String
  total_records : ℕ
  non_null_count : ℕ
  coverage : ℚ
  detailed_addresses : ℕ
  generic_addresses : ℕ
  geocodable_estimate : ℚ
deriving DecidableEq, Repr

/-- The optional regional sub-analysis of `_analyze_municipalities`. -/
structure RegionalAnalysis where
  column : String
  unique_regions : ℕ
  distribution : List (CellValue × ℕ)
deriving DecidableEq, Repr

/-- Result of `_analyze_municipalities`.  Note `unique_municipalities` is
`municipality_counts.nunique()` in the source — the number of *distinct
count values*, not the number of municipalities. -/
structure MunicipalityAnalysis where
  column : String
  total_records : ℕ
  non_null_count : ℕ
  coverage : ℚ
  unique_municipalities : ℕ
  top_municipalities : List (CellValue × ℕ)
  regional_analysis : Option RegionalAnalysis
deriving DecidableEq, Repr

/-- Result of `_assess_geocoding_capability`. -/
structure GeocodingCapability where
  has_coordinates : Bool
  has_addresses : Bool
  has_municipalities : Bool
  coverage : ℚ
  method : Option String
  quality : String
deriving DecidableEq, Repr

/-- The branch-dependent `spatial_variation` dictionary. -/
inductive SpatialVariation where
  | coords (lat_range lon_range : ℚ) (area_type : String)
  | municipal (unique_locations : ℕ)
deriving DecidableEq, Repr

/-- Result of `_assess_clustering_potential`. -/
structure ClusteringPotential where
  feasible : Bool
  method : Option String
  min_samples_met : Bool
  spatial_variation : Option SpatialVariation
  recommended_algorithms : List String
deriving DecidableEq, Repr

/-- The geospatial `summary`. -/
structure GeoSummary where
  geocodable : Bool
  coverage : ℚ
  quality : String
  clustering_feasible : Bool
  score : ℚ
  primary_method : Option String
deriving DecidableEq, Repr

/-- Full result of `analyze_geospatial`. -/
structure GeospatialResult where
  summary : GeoSummary
  coordinates_analysis : Option CoordinatesAnalysis
  address_analysis : Option AddressAnalysis
  municipality_analysis : Option MunicipalityAnalysis
  geocoding_capability : GeocodingCapability
  clustering_potential : ClusteringPotential
  required_fields : List String
  recommendations : List Recommendation
deriving DecidableEq, Repr

/-- Is row `i` a valid coordinate pair: both coerce to numbers, latitude
in `[-90, 90]`, longitude in `[-180, 180]`, and not within `0.001` of
`(0, 0)`. -/
def coordRowValid (latS lonS : List (Option ℚ)) (i : ℕ) : Bool :=
  match latS.getD i none, lonS.getD i none with
  | some la, some lo =>
    decide (-90 ≤ la) && decide (la ≤ 90) &&
    decide (-180 ≤ lo) && decide (lo ≤ 180) &&
    !(decide (|la| < 0.001) && decide (|lo| < 0.001))
  | _, _ => false

/-- `_analyze_coordinates`. -/
def analyzeCoordinates (df : Table) (latCol lonCol : String) :
    CoordinatesAnalysis :=
  let latS := (df.col latCol).map toNumericCell
  let lonS := (df.col lonCol).map toNumericCell
  let total := df.nrows
  let validPairs := ((List.range total).filter (coordRowValid latS lonS)).length
  let invalidCoords := (List.range total).flatMap (fun i =>
    match latS.getD i none, lonS.getD i none with
    | some la, some lo =>
      if -90 ≤ la ∧ la ≤ 90 ∧ -180 ≤ lo ∧ lo ≤ 180 then
        if |la| < 0.001 ∧ |lo| < 0.001 then
          [{ row := i, lat := la, lon := lo,
             issue := "Coordenadas en (0,0) - probablemente nulas" }]
        else []
      else
        [{ row := i, lat := la, lon := lo,
           issue := "Coordenadas fuera de rango válido" }]
    | _, _ => [])
  let boundingBox :=
    if validPairs > 0 then
      let validLats := latS.filterMap id |>.filter (fun q => decide (-90 ≤ q) && decide (q ≤ 90))
      let validLons := lonS.filterMap id |>.filter (fun q => decide (-180 ≤ q) && decide (q ≤ 180))
      some { min_lat := qMin validLats, max_lat := qMax validLats,
             min_lon := qMin validLons, max_lon := qMax validLons }
    else none
  { lat_col := latCol, lon_col := lonCol, total_records := total,
    valid_pairs := validPairs,
    coverage := if total > 0 then (validPairs : ℚ) / (total : ℚ) else 0,
    invalid_coords := invalidCoords.take 10,
    bounding_box := boundingBox }

/-- `_analyze_addresses`. -/
def analyzeAddresses (df : Table) (addressCol : String) : AddressAnalysis :=
  let addresses := dropnaStr (df.col addressCol)
  let total := df.nrows
  let nonNull := addresses.length
  let detailed := (addresses.filter (fun a => a.toList.any Char.isDigit)).length
  let generic := (addresses.filter (fun a =>
    !a.toList.any Char.isDigit &&
    decide ((splitWs (strTrim (strLower a)).toList).length ≤ 2))).length
  { column := addressCol, total_records := total, non_null_count := nonNull,
    coverage := if total > 0 then (nonNull : ℚ) / (total : ℚ) else 0,
    detailed_addresses := detailed, generic_addresses := generic,
    geocodable_estimate := if nonNull > 0 then (detailed : ℚ) / (nonNull : ℚ) else 0 }

/-- `_analyze_municipalities`. -/
def analyzeMunicipalities (df : Table) (municipalityCol : String)
    (regionCol : Option String) : MunicipalityAnalysis :=
  let municipalities := dropna (df.col municipalityCol)
  let total := df.nrows
  let nonNull := municipalities.length
  let municipalityCounts := valueCounts municipalities
  let regionalDist :=
    match regionCol with
    | none => none
    | some rc =>
      let regions := dropna (df.col rc)
      some { column := rc,
             unique_regions := (distinctFirst regions).length,
             distribution := (valueCounts regions).take 10 }
  { column := municipalityCol, total_records := total, non_null_count := nonNull,
    coverage := if total > 0 then (nonNull : ℚ) / (total : ℚ) else 0,
    unique_municipalities := (distinctFirst (municipalityCounts.map Prod.snd)).length,
    top_municipalities := municipalityCounts.take 10,
    regional_analysis := regionalDist }

/-- The untouched default `capability` dict of
`_assess_geocoding_capability`. -/
def geocodingCapabilityDefault : GeocodingCapability :=
  { has_coordinates := false, has_addresses := false,
    has_municipalities := false, coverage := 0, method := none,
    quality := "none" }

/-- Priority-3 branch of `_assess_geocoding_capability`
(municipality-level geocoding). -/
def assessGeocodingCapabilityMunicipal (ma : Option MunicipalityAnalysis) :
    GeocodingCapability :=
  match ma with
  | some m =>
    if m.coverage > 0 then
      { has_coordinates := false, has_addresses := false,
        has_municipalities := true, coverage := m.coverage,
        method := some "geocodificacion_municipal", quality := "basica" }
    else geocodingCapabilityDefault
  | none => geocodingCapabilityDefault

/-- Priority-2 branch of `_assess_geocoding_capability` (detailed
addresses), falling through to priority 3. -/
def assessGeocodingCapabilityNoCoords (aa : Option AddressAnalysis)
    (ma : Option MunicipalityAnalysis) : GeocodingCapability :=
  match aa with
  | some a =>
    if a.geocodable_estimate > 0 then
      { has_coordinates := false, has_addresses := true,
        has_municipalities := false, coverage := a.geocodable_estimate,
        method := some "geocodificacion_direcciones",
        quality := if a.geocodable_estimate ≥ 0.6 then "buena" else "parcial" }
    else assessGeocodingCapabilityMunicipal ma
  | none => assessGeocodingCapabilityMunicipal ma

/-- `_assess_geocoding_capability`: direct coordinates take priority,
then detailed addresses, then municipalities. -/
def assessGeocodingCapability (ca : Option CoordinatesAnalysis)
    (aa : Option AddressAnalysis) (ma : Option MunicipalityAnalysis) :
    GeocodingCapability :=
  match ca with
  | some c =>
    if c.coverage > 0 then
      { has_coordinates := true, has_addresses := false,
        has_municipalities := false, coverage := c.coverage,
        method := some "coordenadas_directas",
        quality :=
          if c.coverage ≥ GEOSPATIAL_MIN_COVERAGE then "excelente"
          else if c.coverage ≥ 0.5 then "buena"
          else "parcial" }
    else assessGeocodingCapabilityNoCoords aa ma
  | none => assessGeocodingCapabilityNoCoords aa ma

/-- The municipal branch of `_assess_clustering_potential`. -/
def clusteringMunicipal (ma : Option MunicipalityAnalysis) : ClusteringPotential :=
  match ma with
  | some m =>
    if m.unique_municipalities ≥ 5 then
      { feasible := true, method := some "agregacion_municipal",
        min_samples_met := true,
        spatial_variation := some (SpatialVariation.municipal m.unique_municipalities),
        recommended_algorithms := ["Agregación por municipio", "Análisis de hotspots"] }
    else
      { feasible := false, method := none, min_samples_met := true,
        spatial_variation := none, recommended_algorithms := [] }
  | none =>
    { feasible := false, method := none, min_samples_met := true,
      spatial_variation := none, recommended_algorithms := [] }

/-- `_assess_clustering_potential`. -/
def assessClusteringPotential (df : Table) (ca : Option CoordinatesAnalysis)
    (ma : Option MunicipalityAnalysis) : ClusteringPotential :=
  if df.nrows < GEOSPATIAL_MIN_POINTS then
    { feasible := false, method := none, min_samples_met := false,
      spatial_variation := none, recommended_algorithms := [] }
  else
    match ca with
    | some c =>
      if c.coverage ≥ 0.5 then
        { feasible := true, method := some "coordenadas_exactas",
          min_samples_met := true,
          spatial_variation :=
            match c.bounding_box with
            | some bb =>
              let latRange := bb.max_lat - bb.min_lat
              let lonRange := bb.max_lon - bb.min_lon
              some (SpatialVariation.coords latRange lonRange
                (if max latRange lonRange < 0.5 then "local"
                 else if max latRange lonRange < 2 then "regional"
                 else "amplio"))
            | none => none,
          recommended_algorithms := ["DBSCAN", "HDBSCAN", "K-means espacial"] }
      else clusteringMunicipal ma
    | none => clusteringMunicipal ma

/-- `_generate_geospatial_summary`. -/
def generateGeospatialSummary (gc : GeocodingCapability)
    (cp : ClusteringPotential) : GeoSummary :=
  let base : ℚ :=
    if gc.quality == "excelente" then 90
    else if gc.quality == "buena" then 70
    else if gc.quality == "parcial" then 50
    else if gc.quality == "basica" then 30
    else 0
  let score := if cp.feasible then base + 10 else base
  { geocodable := decide (gc.coverage > 0), coverage := gc.coverage,
    quality := gc.quality, clustering_feasible := cp.feasible,
    score := min 100 score, primary_method := gc.method }

/-- `_get_required_fields`. -/
def getRequiredFields (gc : GeocodingCapability) : List String :=
  if gc.has_coordinates then ["latitud", "longitud"]
  else if gc.has_addresses then ["direccion", "municipio", "region"]
  else if gc.has_municipalities then ["municipio", "region"]
  else []

/-- `_generate_geospatial_recommendations`.  Note the source's last
message interpolates `len(municipality_analysis)` — the number of keys of
the analysis dict, which is always 7. -/
def generateGeospatialRecommendations (gc : GeocodingCapability)
    (cp : ClusteringPotential) (ca : Option CoordinatesAnalysis)
    (_aa : Option AddressAnalysis) (ma : Option MunicipalityAnalysis) :
    List Recommendation :=
  if gc.quality == "none" then
    [{ priority := "critica", field := "geolocalización",
       issue := "No hay información geográfica utilizable",
       action := "Agregar al menos columna de municipio/localidad en registros futuros",
       impact := "Alto - Imposibilita análisis de patrones espaciales y clusters" }]
  else
    let r1 :=
      match ca with
      | some c =>
        if c.coverage < GEOSPATIAL_MIN_COVERAGE then
          [{ priority := "alta", field := "coordenadas",
             issue := s!"Solo {fmt1 (c.coverage * 100)}% de registros tienen coordenadas válidas",
             action := "Geocodificar direcciones faltantes o usar servicios de geolocalización",
             impact := "Alto - Limita precisión de análisis espaciales" }]
        else []
      | none => []
    let r2 :=
      match ca with
      | some c =>
        if c.invalid_coords.length > 0 then
          [{ priority := "media", field := "coordenadas",
             issue := s!"{c.invalid_coords.length} registros con coordenadas inválidas",
             action := "Revisar y corregir coordenadas fuera de rango o en (0,0)",
             impact := "Medio - Genera ruido en visualizaciones" }]
        else []
      | none => []
    let r3 :=
      if !cp.feasible && ma.isSome then
        [{ priority := "baja", field := "clustering",
           issue := "Solo 7 registros - insuficiente para clustering robusto",
           action := "Acumular más registros o realizar análisis agregado por municipio",
           impact := "Bajo - Análisis espaciales serán limitados" }]
      else []
    r1 ++ r2 ++ r3

/-- `analyze_geospatial`. -/
def analyzeGeospatial (df : Table) : Except String GeospatialResult :=
  if df.isEmpty then .error "El DataFrame está vacío"
  else
    let latCol := findColumn df ["latitud", "lat", "latitude"]
    let lonCol := findColumn df ["longitud", "lon", "lng", "longitude"]
    let addressCol := findColumn df ["direccion", "address", "domicilio"]
    let municipalityCol := findColumn df ["municipio", "comuna", "city", "ciudad", "localidad"]
    let regionCol := findColumn df ["region", "provincia", "state", "departamento"]
    let coordinatesAnalysis :=
      match latCol, lonCol with
      | some la, some lo => some (analyzeCoordinates df la lo)
      | _, _ => none
    let addressAnalysis := addressCol.map (analyzeAddresses df)
    let municipalityAnalysis :=
      municipalityCol.map (fun mc => analyzeMunicipalities df mc regionCol)
    let geocodingCapability :=
      assessGeocodingCapability coordinatesAnalysis addressAnalysis
        municipalityAnalysis
    let clusteringPotential :=
      assessClusteringPotential df coordinatesAnalysis municipalityAnalysis
    .ok
      { summary := generateGeospatialSummary geocodingCapability clusteringPotential
        coordinates_analysis := coordinatesAnalysis
        address_analysis := addressAnalysis
        municipality_analysis := municipalityAnalysis
        geocoding_capability := geocodingCapability
        clustering_potential := clusteringPotential
        required_fields := getRequiredFields geocodingCapability
        recommendations := generateGeospatialRecommendations geocodingCapability
          clusteringPotential coordinatesAnalysis addressAnalysis
          municipalityAnalysis }

/-- Scenario D's table shape: exactly a `latitud` and a `longitud`
column. -/
def coordTable (lats lons : List CellValue) : Table :=
  [("latitud", lats), ("longitud", lons)]

/-- A concrete fully-valid coordinate table. -/
def coordDemoTable : Table :=
  coordTable [CellValue.num 40, CellValue.num (-33)]
             [CellValue.num (-3), CellValue.num (-70)]

/-! ## ML-readiness analyzer (`analyzers/ml_readiness.py`) -/

/-- `series.nunique()`: distinct non-null values. -/
def nuniqueCol (vs : List CellValue) : ℕ := (distinctFirst (dropna vs)).length

/-- Is a column of string (object) pandas dtype?  A CSV column is object
dtype exactly when some cell is textual. -/
def isStringDtypeCol (vs : List CellValue) : Bool := vs.any CellValue.isStr

/-- The two statistical routines the analyzer takes from scipy/numpy
(`chi2_contingency`'s p-value and Pearson correlation).  They compute
with floating-point special functions, so the model treats them as an
externally supplied oracle. -/
structure StatsOracle where
  chi2p : List (List ℕ) → ℚ
  corr : List ℚ → List ℚ → ℚ

/-- `_identify_target_column`. -/
def identifyTargetColumn (df : Table) : Option String :=
  let targetKeywords := ["tipo_evento", "tipo", "resultado", "consumado",
    "intento", "desenlace", "outcome", "target", "label"]
  match df.find? (fun c =>
      (targetKeywords.any (fun kw => strContainsSub (strLower c.1) kw)) &&
      nuniqueCol c.2 ≤ 10) with
  | some c => some c.1
  | none =>
    ((df.filter (fun c => nuniqueCol c.2 == 2)).find? (fun c =>
      let uniqueStr := (distinctFirst (dropna c.2)).map (fun v => strLower v.toStr)
      ["si", "no", "true", "false", "1", "0"].any
        (fun t => uniqueStr.contains t))).map Prod.fst

/-- Result of `_analyze_class_balance`. -/
structure BalanceAnalysis where
  column : String
  n_classes : ℕ
  class_distribution : List (CellValue × ℕ)
  class_proportions : List (CellValue × ℚ)
  min_class_proportion : ℚ
  max_class_proportion : ℚ
  balance_level : String
  requires_balancing : Bool
deriving DecidableEq, Repr

/-- `_analyze_class_balance` (`None` when the target is entirely null). -/
def analyzeClassBalance (df : Table) (targetCol : String) :
    Option BalanceAnalysis :=
  let targetSeries := dropna (df.col targetCol)
  if targetSeries.length = 0 then none
  else
    let classCounts := valueCounts targetSeries
    let classProportions :=
      classCounts.map (fun p => (p.1, (p.2 : ℚ) / (targetSeries.length : ℚ)))
    let minP := qMin (classProportions.map Prod.snd)
    let maxP := qMax (classProportions.map Prod.snd)
    some
      { column := targetCol
        n_classes := classCounts.length
        class_distribution := classCounts
        class_proportions := classProportions
        min_class_proportion := minP
        max_class_proportion := maxP
        balance_level :=
          if minP ≥ 0.4 then "balanceado"
          else if minP ≥ 0.2 then "ligeramente_desbalanceado"
          else if minP ≥ 0.1 then "moderadamente_desbalanceado"
          else "severamente_desbalanceado"
        requires_balancing := decide (minP < ML_IMBALANCE_THRESHOLD) }

/-- The balance analysis the analyzer computes: `_analyze_class_balance`
of the identified target, when one exists. -/
def mlBalanceOf (df : Table) : Option BalanceAnalysis :=
  (identifyTargetColumn df).bind (fun t => analyzeClassBalance df t)

/-- Result of `_analyze_features`. -/
structure FeaturesAnalysis where
  total_columns : ℕ
  potential_features : ℕ
  usable_features : ℕ
  numeric_features : List String
  categorical_features : List String
  datetime_features : List String
  text_features : List String
  features_completeness : List (String × ℚ)
  meets_minimum : Bool
deriving DecidableEq, Repr

/-- `_get_non_feature_columns`: unique identifiers, id-like names and
PII-like names. -/
def getNonFeatureColumns (df : Table) : List String :=
  (df.filter (fun c =>
    nuniqueCol c.2 == df.nrows ||
    ["id", "identificador", "codigo"].any (fun kw => strContainsSub (strLower c.1) kw) ||
    ["nombre", "apellido", "direccion", "email"].any
      (fun kw => strContainsSub (strLower c.1) kw))).map Prod.fst

/-- `_analyze_features`.  The model has no `datetime64` columns (a parsed
CSV keeps dates textual), so the datetime pool is always empty. -/
def analyzeFeatures (df : Table) (targetCol : Option String) : FeaturesAnalysis :=
  let excludeCols := (match targetCol with
    | some t => [t]
    | none => []) ++ getNonFeatureColumns df
  let potentialFeatures := df.filter (fun c => !excludeCols.contains c.1)
  let numericFeatures := (potentialFeatures.filter (fun c => isNumericDtypeCol c.2)).map Prod.fst
  let categoricalFeatures := (potentialFeatures.filter (fun c =>
    !isNumericDtypeCol c.2 && isStringDtypeCol c.2 &&
    decide ((nuniqueCol c.2 : ℚ) / (df.nrows : ℚ) < 0.5))).map Prod.fst
  let textFeatures := (potentialFeatures.filter (fun c =>
    !isNumericDtypeCol c.2 && isStringDtypeCol c.2 &&
    !decide ((nuniqueCol c.2 : ℚ) / (df.nrows : ℚ) < 0.5))).map Prod.fst
  let featuresCompleteness := potentialFeatures.map (fun c =>
    (c.1, 1 - ((c.2.filter CellValue.isNull).length : ℚ) / (df.nrows : ℚ)))
  let usableFeatures := (featuresCompleteness.filter
    (fun p => decide (p.2 ≥ 0.7))).map Prod.fst
  { total_columns := df.length
    potential_features := potentialFeatures.length
    usable_features := usableFeatures.length
    numeric_features := numericFeatures
    categorical_features := categoricalFeatures
    datetime_features := []
    text_features := textFeatures
    features_completeness := featuresCompleteness
    meets_minimum := usableFeatures.length ≥ ML_MIN_FEATURES }

/-- One leakage risk (`p_value`/`correlation` appear only in the branch
that computes them, as in the source's dicts). -/
structure LeakageRisk where
  column : String
  reason : String
  severity : String
  p_value : Option ℚ
  correlation : Option ℚ
deriving DecidableEq, Repr

/-- Row-aligned pairs of a predictor column and the target where both are
non-null (what `pd.crosstab(df[col], target_series)` tabulates). -/
def pairedNonNull (xs ys : List CellValue) (nrows : ℕ) :
    List (CellValue × CellValue) :=
  (List.range nrows).filterMap (fun i =>
    match xs.getD i CellValue.null, ys.getD i CellValue.null with
    | CellValue.null, _ => none
    | _, CellValue.null => none
    | x, y => some (x, y))

/-- The contingency table of the paired values. -/
def crosstabCounts (pairs : List (CellValue × CellValue)) : List (List ℕ) :=
  let rows := distinctFirst (pairs.map Prod.fst)
  let cols := distinctFirst (pairs.map Prod.snd)
  rows.map (fun rv => cols.map (fun cv => countOcc pairs (rv, cv)))

/-- Target label encoding for the correlation branch: `LabelEncoder`
assigns indices by sorted order of the string rendering (model of
`np.unique`'s sort). -/
def labelEncode (vs : List CellValue) : List ℚ :=
  let classes := (distinctFirst vs).mergeSort (fun a b => !(b.toStr < a.toStr))
  vs.map (fun v => ((classes.indexOf? v).getD 0 : ℚ))

/-- `_detect_leakage`, with the two statistical tests supplied by the
oracle. -/
def detectLeakage (oracle : StatsOracle) (df : Table)
    (targetCol : Option String) : List LeakageRisk :=
  match targetCol with
  | none => []
  | some target =>
    let targetSeries := dropna (df.col target)
    let statRisks := df.flatMap (fun c =>
      if c.1 == target then []
      else if !isNumericDtypeCol c.2 && !isStringDtypeCol c.2 then []
      else if isStringDtypeCol c.2 || nuniqueCol c.2 < 20 then
        let pairs := pairedNonNull c.2 (df.col target) df.nrows
        -- the `try/except` around `chi2_contingency`: skip degenerate input
        if pairs.isEmpty then []
        else
          let p := oracle.chi2p (crosstabCounts pairs)
          if p < 0.001 ∧ nuniqueCol c.2 = (distinctFirst targetSeries).length then
            [{ column := c.1,
               reason := "Correlación perfecta con target (posible proxy o consecuencia)",
               severity := "alta", p_value := some p, correlation := none }]
          else []
      else
        let targetEncoded :=
          if isNumericDtypeCol (df.col target) then
            targetSeries.map (fun v => match v with
              | CellValue.num q => q
              | _ => 0)
          else labelEncode targetSeries
        let colNumeric := (dropna c.2).map (fun v => (toNumericCell v).getD 0)
        let validLen := min colNumeric.length targetEncoded.length
        if validLen > 10 then
          let r := oracle.corr (colNumeric.take validLen) (targetEncoded.take validLen)
          if |r| > 0.95 then
            [{ column := c.1,
               reason := s!"Correlación muy alta con target (r={fmt1 r})",
               severity := "alta", p_value := none, correlation := some r }]
          else []
        else [])
    let temporalRisks := df.flatMap (fun c =>
      if ["fecha", "date", "timestamp"].any
          (fun kw => strContainsSub (strLower c.1) kw) then
        if ["notificacion", "reporte", "registro", "ingreso"].any
            (fun kw => strContainsSub (strLower c.1) kw) then
          [{ column := c.1,
             reason := "Fecha posterior al evento (no disponible al momento de predicción)",
             severity := "critica", p_value := none, correlation := none }]
        else []
      else [])
    statRisks ++ temporalRisks

/-- Result of `_analyze_correlations` (the `< 2` early return leaves only
`has_correlations=False`; the other fields then carry their defaults). -/
structure CorrelationAnalysis where
  has_correlations : Bool
  numeric_features_count : ℕ
  high_correlations : List (String × String × ℚ)
  multicollinearity_risk : Bool
deriving DecidableEq, Repr

/-- All ordered pairs `i < j` of a list. -/
def upperPairs {α : Type} (xs : List α) : List (α × α) :=
  match xs with
  | [] => []
  | x :: rest => rest.map (fun y => (x, y)) ++ upperPairs rest

/-- `_analyze_correlations`, with Pearson `r` from the oracle over
pairwise rows where both columns are non-null (pandas'
pairwise-complete `DataFrame.corr`). -/
def analyzeCorrelations (oracle : StatsOracle) (df : Table)
    (_targetCol : Option String) : CorrelationAnalysis :=
  let numericCols := df.filter (fun c => isNumericDtypeCol c.2)
  if numericCols.length < 2 then
    { has_correlations := false, numeric_features_count := 0,
      high_correlations := [], multicollinearity_risk := false }
  else
    let highCorrelations := (upperPairs numericCols).filterMap (fun p =>
      let pairs := pairedNonNull p.1.2 p.2.2 df.nrows
      let xs := pairs.map (fun q => (toNumericCell q.1).getD 0)
      let ys := pairs.map (fun q => (toNumericCell q.2).getD 0)
      let r := oracle.corr xs ys
      if |r| > 0.8 then some (p.1.1, p.2.1, r) else none)
    { has_correlations := true
      numeric_features_count := numericCols.length
      high_correlations := highCorrelations.take 10
      multicollinearity_risk := highCorrelations.length > 5 }

/-- Result of `_assess_ml_viability`. -/
structure MLViability where
  viable : Bool
  confidence : String
  blockers : List String
  warnings : List String
  score : ℚ
deriving DecidableEq, Repr

/-- `_assess_ml_viability`: sequential mutations of the `viability` dict
expressed as a chain of updates. -/
def assessMlViability (nSamples : ℕ) (fa : FeaturesAnalysis)
    (ba : Option BalanceAnalysis) (leakageRisks : List LeakageRisk) :
    MLViability :=
  let v0 : MLViability :=
    { viable := true, confidence := "alta", blockers := [], warnings := [],
      score := 100 }
  let v1 :=
    if nSamples < ML_MIN_SAMPLES then
      { v0 with
        viable := false
        confidence := "nula"
        blockers := v0.blockers ++
          [s!"Insuficientes muestras: {nSamples} < {ML_MIN_SAMPLES} requeridas"]
        score := v0.score - 50 }
    else v0
  let v2 :=
    if !fa.meets_minimum then
      { v1 with
        viable := false
        blockers := v1.blockers ++
          [s!"Insuficientes features útiles: {fa.usable_features} < {ML_MIN_FEATURES}"]
        score := v1.score - 30 }
    else v1
  let v3 :=
    match ba with
    | some b =>
      if b.balance_level == "severamente_desbalanceado" then
        { v2 with
          warnings := v2.warnings ++
            [s!"Desbalance severo de clases ({fmt1 (b.min_class_proportion * 100)}% clase minoritaria)"]
          confidence := "media"
          score := v2.score - 15 }
      else v2
    | none => v2
  let criticalLeakage := leakageRisks.filter (fun r => r.severity == "critica")
  let v4 :=
    if !criticalLeakage.isEmpty then
      { v3 with
        warnings := v3.warnings ++
          [s!"{criticalLeakage.length} columnas con riesgo crítico de leakage"]
        score := v3.score - 20 }
    else v3
  { v4 with score := max 0 v4.score }

/-- One entry of `_suggest_models`. -/
structure ModelSuggestion where
  task : String
  models : List String
  reason : String
deriving DecidableEq, Repr

/-- `_suggest_models`. -/
def suggestModels (targetCol : Option String) (ba : Option BalanceAnalysis)
    (fa : FeaturesAnalysis) (nSamples : ℕ) : List ModelSuggestion :=
  match targetCol with
  | none =>
    [{ task := "clustering",
       models := ["K-means", "DBSCAN", "Hierarchical Clustering"],
       reason := "No hay variable target - análisis no supervisado" }]
  | some _ =>
    let sClass :=
      match ba with
      | some b =>
        if b.n_classes == 2 then
          (if nSamples < 1000 then
            [{ task := "clasificacion_binaria",
               models := ["Logistic Regression", "Random Forest", "XGBoost"],
               reason := "Dataset pequeño - modelos interpretables recomendados" }]
          else
            [{ task := "clasificacion_binaria",
               models := ["Random Forest", "XGBoost", "LightGBM", "Redes Neuronales"],
               reason := "Dataset grande - modelos complejos viables" }]) ++
          (if b.requires_balancing then
            [{ task := "manejo_desbalance",
               models := ["SMOTE", "Class weights", "Undersampling"],
               reason := s!"Clases desbalanceadas ({fmt1 (b.min_class_proportion * 100)}% minoritaria)" }]
          else [])
        else if b.n_classes ≤ 10 then
          [{ task := "clasificacion_multiclase",
             models := ["Random Forest", "XGBoost", "Multi-class Logistic Regression"],
             reason := s!"{b.n_classes} clases - clasificación multiclase" }]
        else []
      | none => []
    let sTime :=
      if !fa.datetime_features.isEmpty then
        [{ task := "series_temporales",
           models := ["ARIMA", "Prophet", "LSTM"],
           reason := "Datos con componente temporal - análisis de tendencias posible" }]
      else []
    sClass ++ sTime

/-- The ML `summary`. -/
structure MLSummary where
  viable : Bool
  confidence : String
  score : ℚ
  usable_features : ℕ
  has_target : Bool
  balance_level : Option String
  critical_issues : ℕ
deriving DecidableEq, Repr

/-- `_generate_ml_summary`. -/
def generateMlSummary (viability : MLViability) (fa : FeaturesAnalysis)
    (ba : Option BalanceAnalysis) : MLSummary :=
  { viable := viability.viable, confidence := viability.confidence,
    score := viability.score, usable_features := fa.usable_features,
    has_target := ba.isSome,
    balance_level := ba.map BalanceAnalysis.balance_level,
    critical_issues := viability.blockers.length }

/-- `_generate_ml_recommendations`. -/
def generateMlRecommendations (viability : MLViability)
    (ba : Option BalanceAnalysis) (leakageRisks : List LeakageRisk) :
    List Recommendation :=
  let rBlockers := viability.blockers.map (fun b =>
    { priority := "critica", field := "general", issue := b,
      action := "Resolver antes de intentar ML",
      impact := "Crítico - ML no viable sin esto" })
  let rLeakage := (leakageRisks.take 3).map (fun r =>
    { priority := if r.severity == "critica" then "alta" else "media",
      field := r.column,
      issue := s!"Riesgo de leakage: {r.reason}",
      action := "Eliminar columna o verificar que esté disponible al momento de predicción",
      impact := "Alto - Resultados optimistas pero inútiles en producción" })
  let rBalance :=
    match ba with
    | some b =>
      if b.requires_balancing then
        [{ priority := "media", field := b.column,
           issue := s!"Desbalance de clases: {fmt1 (b.min_class_proportion * 100)}% minoritaria",
           action := "Aplicar SMOTE, ajustar pesos de clase o usar métricas apropiadas (F1, AUC-ROC)",
           impact := "Medio - Modelos pueden ignorar clase minoritaria" }]
      else []
    | none => []
  rBlockers ++ rLeakage ++ rBalance

/-- Full result of `analyze_ml_readiness`. -/
structure MLResult where
  summary : MLSummary
  target_column : Option String
  features_analysis : FeaturesAnalysis
  balance_analysis : Option BalanceAnalysis
  leakage_risks : List LeakageRisk
  correlation_analysis : CorrelationAnalysis
  ml_viability : MLViability
  model_suggestions : List ModelSuggestion
  recommendations : List Recommendation
deriving DecidableEq, Repr

/-- `analyze_ml_readiness`. -/
def analyzeMlReadiness (oracle : StatsOracle) (df : Table) :
    Except String MLResult :=
  if df.isEmpty then .error "El DataFrame está vacío"
  else
    let targetCol := identifyTargetColumn df
    let featuresAnalysis := analyzeFeatures df targetCol
    let balanceAnalysis := targetCol.bind (fun t => analyzeClassBalance df t)
    let leakageRisks := detectLeakage oracle df targetCol
    let correlationAnalysis := analyzeCorrelations oracle df targetCol
    let mlViability :=
      assessMlViability df.nrows featuresAnalysis balanceAnalysis leakageRisks
    let modelSuggestions :=
      suggestModels targetCol balanceAnalysis featuresAnalysis df.nrows
    .ok
      { summary := generateMlSummary mlViability featuresAnalysis balanceAnalysis
        target_column := targetCol
        features_analysis := featuresAnalysis
        balance_analysis := balanceAnalysis
        leakage_risks := leakageRisks
        correlation_analysis := correlationAnalysis
        ml_viability := mlViability
        model_suggestions := modelSuggestions
        recommendations := generateMlRecommendations mlViability balanceAnalysis
          leakageRisks }

/-- A 1000-value target column split 950/50. -/
def ml950Col : List CellValue :=
  List.replicate 950 (CellValue.str "si") ++ List.replicate 50 (CellValue.str "no")

/-- Scenario C's table: 1000 rows, one target column split 950/50. -/
def ml950Table : Table := [("tipo_evento", ml950Col)]

/-! ## Completeness analyzer (`analyzers/completeness.py`) -/

/-- Maximal runs of `true` in a boolean mask (the number of distinct
values `missing_mask.astype(int).diff().ne(0).cumsum()` takes on missing
positions). -/
def countRunsAux : Bool → List Bool → ℕ
  | _, [] => 0
  | prev, b :: bs => (if b && !prev then 1 else 0) + countRunsAux b bs

/-- Number of maximal blocks of missing values. -/
def countRuns (mask : List Bool) : ℕ := countRunsAux false mask

/-- `_detect_missing_pattern`.  An uploaded CSV has a `RangeIndex`, never
a datetime index, so the `concentrado_temporal` branch is unreachable and
is omitted. -/
def detectMissingPattern (vals : List CellValue) : String :=
  let mask := vals.map CellValue.isNull
  let missing := (vals.filter CellValue.isNull).length
  if missing = 0 then "sin_valores_faltantes"
  else if vals.all CellValue.isNull then "columna_completamente_vacia"
  else if countRuns mask < 5 ∧ missing > 10 then "bloques_consecutivos"
  else "aleatorio"

/-- `_is_critical_field`. -/
def isCriticalField (columnName : String) : Bool :=
  let columnLower := strTrim (strLower columnName)
  CRITICAL_FIELDS_SUICIDE_DATA.any
    (fun cr => strContainsSub columnLower (strLower cr)) ||
  ["fecha", "edad", "sexo", "genero", "metodo", "municipio",
   "localidad", "tipo", "intento", "consumado", "fallec"].any
    (fun kw => strContainsSub columnLower kw)

/-- One column's entry of `columns_analysis`. -/
structure ColumnCompleteness where
  missing_count : ℕ
  missing_rate : ℚ
  total_records : ℕ
  pattern : String
  is_critical : Bool
deriving DecidableEq, Repr

/-- `_analyze_column` body of the loop in `analyze_completeness`. -/
def analyzeColumnCompleteness (df : Table) (vals : List CellValue) :
    ColumnCompleteness :=
  let missingCount := (vals.filter CellValue.isNull).length
  { missing_count := missingCount
    missing_rate := (missingCount : ℚ) / (df.nrows : ℚ)
    total_records := df.nrows
    pattern := detectMissingPattern vals
    is_critical := false }  -- placeholder, set by the caller per column name

/-- The `evaluation` dict of `_evaluate_completeness`. -/
structure CompletenessEvaluation where
  score : ℚ
  level : String
  message : String
  critical_issues_count : ℕ
  meets_threshold : Bool
deriving DecidableEq, Repr

/-- `_evaluate_completeness`. -/
def evaluateCompleteness (missingPercentage : ℚ) (criticalMissingCount : ℕ) :
    CompletenessEvaluation :=
  let score0 : ℚ := max 0 (100 - missingPercentage)
  let score :=
    if criticalMissingCount > 0 then
      max 0 (score0 - min 30 ((criticalMissingCount : ℚ) * 10))
    else score0
  let lm : String × String :=
    if score ≥ 90 then ("excelente", "La base tiene excelente completitud")
    else if score ≥ 75 then ("bueno", "La completitud es buena pero mejorable")
    else if score ≥ 60 then
      ("aceptable", "La completitud es aceptable pero requiere atención")
    else if score ≥ 40 then ("deficiente", "La completitud es deficiente")
    else ("critico", "La completitud es crítica - datos no confiables")
  { score := score
    level := lm.1
    message := lm.2
    critical_issues_count := criticalMissingCount
    meets_threshold := decide (score ≥ COMPLETENESS_THRESHOLD * 100) }

/-- `_generate_completeness_recommendations`. -/
def generateCompletenessRecommendations (missingPercentage : ℚ)
    (criticalFields : List String)
    (columnsAnalysis : List (String × ColumnCompleteness)) :
    List Recommendation :=
  let r1 :=
    if !criticalFields.isEmpty then
      [{ priority := "critica"
         field := String.intercalate ", " criticalFields
         issue := "Campo(s) crítico(s) con >30% de datos faltantes"
         action := "Recuperar estos datos de fuentes primarias (registros hospitalarios, policiales, registro civil)"
         impact := "Alto - Sin estos datos, análisis de riesgo y patrones serán poco confiables" }]
    else []
  let r2 :=
    if missingPercentage > 20 then
      [{ priority := "alta"
         field := "general"
         issue := s!"Completitud general del {fmt1 (100 - missingPercentage)}% (objetivo: >85%)"
         action := "Implementar protocolos de registro obligatorio en el punto de captura"
         impact := "Medio - Limita análisis estadísticos robustos" }]
    else []
  let temporalIssues := (columnsAnalysis.filter (fun p =>
      strContainsSub p.2.pattern "temporal" ∧ p.2.missing_rate > 0.1)).map Prod.fst
  let r3 :=
    if !temporalIssues.isEmpty then
      [{ priority := "media"
         field := String.intercalate ", " (temporalIssues.take 3)
         issue := "Datos faltantes concentrados en períodos específicos"
         action := "Revisar cambios en protocolos de registro o problemas sistémicos en esos períodos"
         impact := "Medio - Puede sesgar análisis de tendencias temporales" }]
    else []
  let emptyCols := (columnsAnalysis.filter
      (fun p => p.2.pattern == "columna_completamente_vacia")).map Prod.fst
  let r4 :=
    if !emptyCols.isEmpty then
      [{ priority := "baja"
         field := String.intercalate ", " emptyCols
         issue := "Columna(s) sin ningún dato registrado"
         action := "Eliminar estas columnas o iniciar su captura sistemática"
         impact := "Bajo - No aportan información actualmente" }]
    else []
  r1 ++ r2 ++ r3 ++ r4

/-- The completeness `summary` (its `analysis_timestamp` — a wall-clock
reading — is modelled outside the result). -/
structure CompletenessSummary where
  total_cells : ℕ
  missing_cells : ℕ
  missing_percentage : ℚ
  total_columns : ℕ
  total_rows : ℕ
deriving DecidableEq, Repr

/-- Full result of `analyze_completeness`. -/
structure CompletenessResult where
  summary : CompletenessSummary
  columns_analysis : List (String × ColumnCompleteness)
  critical_fields_missing : List String
  top_missing_columns : List (String × ℚ)
  evaluation : CompletenessEvaluation
  recommendations : List Recommendation
deriving DecidableEq, Repr

/-- `analyze_completeness` (the raised `ValueError` becomes `.error` with
its message). -/
def analyzeCompleteness (df : Table) : Except String CompletenessResult :=
  if df.isEmpty then .error "El DataFrame está vacío"
  else
    let totalCells := df.length * df.nrows
    let missingCells : ℕ :=
      (df.map (fun c => (c.2.filter CellValue.isNull).length)).sum
    let missingPercentage := ((missingCells : ℚ) / (totalCells : ℚ)) * 100
    let columnsAnalysis := df.map (fun c =>
      (c.1, { analyzeColumnCompleteness df c.2 with
              is_critical := isCriticalField c.1 }))
    let criticalFieldsMissing := (columnsAnalysis.filter (fun p =>
      isCriticalField p.1 ∧
        p.2.missing_rate > COMPLETENESS_CRITICAL_THRESHOLD)).map Prod.fst
    let topMissing :=
      ((columnsAnalysis.map (fun p => (p.1, p.2.missing_rate))).mergeSort
        (fun a b => a.2 ≥ b.2)).take 5
    let evaluation :=
      evaluateCompleteness missingPercentage criticalFieldsMissing.length
    .ok
      { summary :=
          { total_cells := totalCells
            missing_cells := missingCells
            missing_percentage := missingPercentage
            total_columns := df.length
            total_rows := df.nrows }
        columns_analysis := columnsAnalysis
        critical_fields_missing := criticalFieldsMissing
        top_missing_columns := topMissing
        evaluation := evaluation
        recommendations := generateCompletenessRecommendations
          missingPercentage criticalFieldsMissing columnsAnalysis }

/-! ## Typology analyzer (`analyzers/typology.py`) -/

/-- Decimal digit test used by the typology regexes. -/
def isDigit09 (c : Char) : Bool := '0' ≤ c && c ≤ '9'

/-- `re.match(r'^-?\d+$', s)` (anchored on both sides). -/
def matchIntString (cs : List Char) : Bool :=
  let body := match cs with
    | '-' :: rest => rest
    | other => other
  !body.isEmpty && body.all isDigit09

/-- `re.match(r'^-?\d+[.,]\d+$', s)`. -/
def matchFloatString (cs : List Char) : Bool :=
  let body := match cs with
    | '-' :: rest => rest
    | other => other
  let intPart := body.takeWhile isDigit09
  match body.drop intPart.length with
  | sep :: frac =>
    !intPart.isEmpty && (sep == '.' || sep == ',') &&
    !frac.isEmpty && frac.all isDigit09
  | [] => false

/-- Matches a shape prefix against a char list (`none` = one digit,
`some c` = the literal `c`). -/
def matchShape : List (Option Char) → List Char → Bool
  | [], _ => true
  | _ :: _, [] => false
  | p :: ps, c :: cs =>
    (match p with
     | none => isDigit09 c
     | some l => c == l) && matchShape ps cs

/-- `_looks_like_date` (`re.match`: prefix matching, no `$`). -/
def looksLikeDate (cs : List Char) : Bool :=
  matchShape [none, none, none, none, some '-', none, none, some '-',
    none, none] cs ||
  matchShape [none, none, some '/', none, none, some '/', none, none,
    none, none] cs ||
  matchShape [none, none, some '-', none, none, some '-', none, none,
    none, none] cs

/-- `_detect_value_type`.  Cells parsed from a CSV are strings or
numbers, so the `datetime`/`bool` `isinstance` branches never fire; a
float with integral value reports `integer` (`value.is_integer()`). -/
def detectValueType (v : CellValue) : String :=
  match v with
  | CellValue.null => "null"
  | CellValue.num q => if q.den = 1 then "integer" else "float"
  | CellValue.str s =>
    let stripped := trimWs s.toList
    if ["true", "false", "verdadero", "falso", "sí", "si", "no", "t", "f"].contains
        (String.mk (stripped.map charLower)) then "string_boolean"
    else if matchIntString stripped then "string_integer"
    else if matchFloatString stripped then "string_float"
    else if looksLikeDate stripped then "string_datetime"
    else if stripped.length < 50 then "string_categorical"
    else "string_text"

/-- One entry of `inconsistent_examples`. -/
structure TypeExample where
  row : ℕ
  value : String
  detected_type : String
deriving DecidableEq, Repr

/-- The loop over `col_data.items()` that collects inconsistent
examples: after counting the current value's type, if more than one type
has been seen and fewer than 10 examples collected, the current value is
recorded.  `idx` is the row label, which `dropna` preserves. -/
def collectTypeExamples (cells : List (ℕ × CellValue)) : List TypeExample :=
  (cells.foldl
    (fun (acc : List String × List TypeExample) c =>
      let t := detectValueType c.2
      let seen := if acc.1.contains t then acc.1 else acc.1 ++ [t]
      if seen.length > 1 ∧ acc.2.length < 10 then
        (seen, acc.2 ++ [{ row := c.1
                           value := String.mk (c.2.toStr.toList.take 50)
                           detected_type := t }])
      else (seen, acc.2))
    ([], [])).2

/-- Python's `max(counts, key=counts.get)`: the first key attaining the
maximum, in iteration (insertion) order. -/
def argmaxFirst (l : List (String × ℕ)) : String :=
  match l with
  | [] => "unknown"
  | p :: rest => (rest.foldl (fun q r => if r.2 > q.2 then r else q) p).1

/-- `str(df[col].dtype)` for a parsed CSV column: textual cells give
`object`; otherwise the column is numeric — `int64` when all values are
integral and none missing, else `float64` (missing values make pandas
promote to float). -/
def pandasDtype (vals : List CellValue) : String :=
  if vals.any CellValue.isStr then "object"
  else if vals.any CellValue.isNull then "float64"
  else if vals.all (fun v => match v with
    | CellValue.num q => q.den = 1
    | _ => true) then "int64"
  else "float64"

/-- One encoding-issue example. -/
structure EncodingExample where
  row : ℕ
  value : String
  issue : String
deriving DecidableEq, Repr

/-- `_detect_encoding_issues`.  The `issues_found` set is modelled as an
insertion-ordered duplicate-free list (CPython's 2-element set iteration
order is hash-dependent; insertion order is one realizable order).  The
example budget of 5 is shared between both issue kinds, as in the
source's single `examples` list. -/
def detectEncodingIssues (cells : List (ℕ × CellValue)) (isStringDtype : Bool) :
    Option String × List EncodingExample :=
  if !isStringDtype then (none, [])
  else
    let st := cells.foldl
      (fun (acc : List String × List EncodingExample) c =>
        match c.2 with
        | CellValue.str s =>
          let acc1 :=
            if ["Ã", "Â", "©", "º", "ª"].any (fun ch => strContainsSub s ch) &&
               (strContainsSub s "Ã±" || strContainsSub s "Ã©" ||
                strContainsSub s "Ã³") then
              (if acc.1.contains "utf8_latin1_mix" then acc.1
               else acc.1 ++ ["utf8_latin1_mix"],
               if acc.2.length < 5 then
                 acc.2 ++ [{ row := c.1
                             value := String.mk (s.toList.take 50)
                             issue := "Posible mezcla UTF-8/Latin-1" }]
               else acc.2)
            else acc
          if strContainsSub s "\\x" || strContainsSub s "\\u" then
            (if acc1.1.contains "escaped_characters" then acc1.1
             else acc1.1 ++ ["escaped_characters"],
             if acc1.2.length < 5 then
               acc1.2 ++ [{ row := c.1
                            value := String.mk (s.toList.take 50)
                            issue := "Caracteres de escape sin procesar" }]
             else acc1.2)
          else acc1
        | _ => acc)
      ([], [])
    if st.1.isEmpty then (none, [])
    else (some (String.intercalate ", " st.1), st.2)

/-- One column's typology record (`_analyze_column_type`). -/
structure ColumnTypology where
  pandas_dtype : String
  inferred_type : String
  detected_types : List String
  type_distribution : List (String × ℕ)
  has_inconsistency : Bool
  inconsistency_rate : ℚ
  inconsistent_examples : List TypeExample
  encoding_issue : Option String
  encoding_examples : List EncodingExample
  total_non_null : ℕ
deriving DecidableEq, Repr

/-- Row-labelled non-null cells of a column (`df[column].dropna()` keeps
the original row labels). -/
def labelledNonNull (vals : List CellValue) : List (ℕ × CellValue) :=
  vals.enum.filter (fun c => !c.2.isNull)

/-- `_analyze_column_type`.  The empty branch returns a dict without
`type_distribution`/`total_non_null` keys; those fields are defaulted to
`[]`/`0` here (every later access to them is guarded by
`inferred_type`). -/
def analyzeColumnType (vals : List CellValue) : ColumnTypology :=
  let colData := labelledNonNull vals
  if colData.length = 0 then
    { pandas_dtype := pandasDtype vals
      inferred_type := "empty"
      detected_types := []
      type_distribution := []
      has_inconsistency := false
      inconsistency_rate := 0
      inconsistent_examples := []
      encoding_issue := none
      encoding_examples := []
      total_non_null := 0 }
  else
    let typeCounts := valueCountsRaw (colData.map (fun c => detectValueType c.2))
    let inferredType := argmaxFirst typeCounts
    let totalNonNull := colData.length
    let mainTypeCount := ((typeCounts.lookup inferredType).getD 0)
    let inconsistencyRate := 1 - (mainTypeCount : ℚ) / (totalNonNull : ℚ)
    let enc := detectEncodingIssues colData (isStringDtypeCol vals)
    { pandas_dtype := pandasDtype vals
      inferred_type := inferredType
      detected_types := typeCounts.map Prod.fst
      type_distribution := typeCounts
      has_inconsistency := decide (inconsistencyRate > 0.05)
      inconsistency_rate := inconsistencyRate
      inconsistent_examples := (collectTypeExamples colData).take 5
      encoding_issue := enc.1
      encoding_examples := enc.2
      total_non_null := totalNonNull }

/-- One entry of the `inconsistencies` list. -/
structure TypeInconsistency where
  column : String
  expected : String
  found : List String
  inconsistency_rate : ℚ
  examples : List TypeExample
deriving DecidableEq, Repr

/-- One entry of the `encoding_issues` list. -/
structure EncodingIssue where
  column : String
  issue : String
  examples : List EncodingExample
deriving DecidableEq, Repr

/-- The typology `summary`. -/
structure TypologySummary where
  total_columns : ℕ
  inconsistencies_count : ℕ
  encoding_issues_count : ℕ
  type_distribution : List (String × ℕ)
  quality_score : ℚ
deriving DecidableEq, Repr

/-- `_calculate_typology_score`. -/
def calculateTypologyScore (totalCols inconsistenciesCount encodingIssuesCount : ℕ) : ℚ :=
  let s1 : ℚ :=
    if totalCols > 0 then
      100 - ((inconsistenciesCount : ℚ) / (totalCols : ℚ)) * 40
    else 100
  let s2 : ℚ :=
    if totalCols > 0 then
      s1 - ((encodingIssuesCount : ℚ) / (totalCols : ℚ)) * 30
    else s1
  max 0 s2

/-- `_generate_typology_summary`. -/
def generateTypologySummary (columnsTypology : List (String × ColumnTypology))
    (inconsistencies : List TypeInconsistency)
    (encodingIssues : List EncodingIssue) : TypologySummary :=
  { total_columns := columnsTypology.length
    inconsistencies_count := inconsistencies.length
    encoding_issues_count := encodingIssues.length
    type_distribution :=
      valueCountsRaw (columnsTypology.map (fun p => p.2.inferred_type))
    quality_score := calculateTypologyScore columnsTypology.length
      inconsistencies.length encodingIssues.length }

/-- `_generate_typology_recommendations`. -/
def generateTypologyRecommendations (inconsistencies : List TypeInconsistency)
    (encodingIssues : List EncodingIssue)
    (columnsTypology : List (String × ColumnTypology)) : List Recommendation :=
  let rInc := (inconsistencies.take 3).map (fun issue =>
    let col := issue.column
    let expected := issue.expected
    let action :=
      if issue.found.contains "string_integer" ∧ expected = "integer" then
        s!"Convertir valores string a enteros: pd.to_numeric(df[\x27{col}\x27], errors=\x27coerce\x27)"
      else if issue.found.contains "string_float" ∧
          (expected = "float" ∨ expected = "integer") then
        "Convertir valores string a numéricos, considerar separador decimal regional"
      else if issue.found.contains "string_datetime" then
        s!"Convertir a datetime: pd.to_datetime(df[\x27{col}\x27], format=\x27...\x27, errors=\x27coerce\x27)"
      else
        "Estandarizar tipo de dato y limpiar valores inconsistentes"
    { priority := "alta"
      field := col
      issue := s!"Tipo inconsistente: {fmt1 (issue.inconsistency_rate * 100)}% de valores no coinciden"
      action := action
      impact := "Alto - Impide análisis cuantitativos correctos" })
  let rEnc := (encodingIssues.take 3).map (fun issue =>
    { priority := "media"
      field := issue.column
      issue := s!"Problemas de codificación de caracteres: {issue.issue}"
      action := s!"Recodificar a UTF-8: df[\x27{issue.column}\x27] = df[\x27{issue.column}\x27].str.encode(\x27latin1\x27).str.decode(\x27utf8\x27)"
      impact := "Medio - Afecta análisis de texto y búsquedas" })
  let potentialCategorical := (columnsTypology.filter (fun p =>
    (p.2.inferred_type = "string_categorical" ∨ p.2.inferred_type = "string_text") ∧
    p.2.total_non_null > 50 ∧
    (distinctFirst (p.2.inconsistent_examples.map TypeExample.value)).length < 20)).map
      Prod.fst
  let rCat :=
    if !potentialCategorical.isEmpty then
      [{ priority := "baja"
         field := String.intercalate ", " (potentialCategorical.take 3)
         issue := "Columnas string que parecen categóricas"
         action := "Convertir a tipo \x27category\x27 para optimizar memoria y análisis"
         impact := "Bajo - Mejora eficiencia y claridad" }]
    else []
  rInc ++ rEnc ++ rCat

/-- Full result of `analyze_typology` (`analysis_timestamp` modelled
outside the record). -/
structure TypologyResult where
  summary : TypologySummary
  columns_typology : List (String × ColumnTypology)
  inconsistencies : List TypeInconsistency
  encoding_issues : List EncodingIssue
  recommendations : List Recommendation
deriving DecidableEq, Repr

/-- `analyze_typology`. -/
def analyzeTypology (df : Table) : Except String TypologyResult :=
  if df.isEmpty then .error "El DataFrame está vacío"
  else
    let columnsTypology := df.map (fun c => (c.1, analyzeColumnType c.2))
    let inconsistencies := columnsTypology.filterMap (fun p =>
      if p.2.has_inconsistency then
        some { column := p.1
               expected := p.2.inferred_type
               found := p.2.detected_types
               inconsistency_rate := p.2.inconsistency_rate
               examples := p.2.inconsistent_examples.take 3 }
      else none)
    let encodingIssues := columnsTypology.filterMap (fun p =>
      match p.2.encoding_issue with
      | some iss =>
        some { column := p.1, issue := iss,
               examples := p.2.encoding_examples.take 3 }
      | none => none)
    .ok
      { summary :=
          generateTypologySummary columnsTypology inconsistencies encodingIssues
        columns_typology := columnsTypology
        inconsistencies := inconsistencies
        encoding_issues := encodingIssues
        recommendations := generateTypologyRecommendations inconsistencies
          encodingIssues columnsTypology }

/-! ## Anonymization report and validation (`integration/anonymizer.py`) -/

/-- `validate_anonymization`'s result. -/
structure AnonValidation where
  is_safe : Bool
  warnings : List String
  residual_pii_risk : ℚ
deriving DecidableEq, Repr

/-- `r'@.*\.'` searched anywhere in a string: an `@` with a `.`
somewhere after it. -/
def hasEmailResidue (s : String) : Bool :=
  (List.range s.toList.length).any (fun i =>
    match s.toList.drop i with
    | '@' :: rest => rest.contains '.'
    | _ => false)

/-- The `{1,2}`-group variant of the person-name pattern used by
`validate_anonymization` (`^[A-ZÁÉÍÓÚÑ][a-záéíóúñ]+(\s[A-ZÁÉÍÓÚÑ][a-záéíóúñ]+){1,2}$`:
two or three capitalized words). -/
def matchPersonName23 (s : String) : Bool :=
  match chompNameWord s.toList with
  | none => false
  | some rest => nameGroups 2 3 rest 0

/-- `validate_anonymization`: scans the first 100 non-null values of
each column (as strings) for residual PII patterns. -/
def validateAnonymization (df : Table) : AnonValidation :=
  df.foldl
    (fun validation c =>
      let colSample := ((dropna c.2).map CellValue.toStr).take 100
      let v1 :=
        if colSample.any hasEmailResidue then
          { validation with
            is_safe := false
            warnings := validation.warnings ++
              [s!"Posibles emails en columna \x27{c.1}\x27"]
            residual_pii_risk := validation.residual_pii_risk + 1 }
        else validation
      let v2 :=
        if colSample.any hasNineDigitRun then
          { v1 with
            warnings := v1.warnings ++
              [s!"Posibles teléfonos en columna \x27{c.1}\x27"]
            residual_pii_risk := v1.residual_pii_risk + 0.5 }
        else v1
      if (colSample.filter matchPersonName23).length > 10 then
        { v2 with
          is_safe := false
          warnings := v2.warnings ++
            [s!"Posibles nombres en columna \x27{c.1}\x27"]
          residual_pii_risk := v2.residual_pii_risk + 2 }
      else v2)
    { is_safe := true, warnings := [], residual_pii_risk := 0 }

/-- `generate_anonymization_report`'s `data_preserved` sub-dict. -/
structure DataPreserved where
  rows : ℕ
  usable_columns : ℕ
deriving DecidableEq, Repr

/-- The anonymization report (the orchestrator later attaches
`validation`). -/
structure AnonReport where
  original_columns : ℕ
  anonymized_columns : ℕ
  columns_removed : ℕ
  transformations_applied : ℕ
  transformation_details : List (String × String)
  data_preserved : DataPreserved
  validation : Option AnonValidation
deriving DecidableEq, Repr

/-- `generate_anonymization_report` (`validation` starts absent). -/
def generateAnonymizationReport (originalDf anonymizedDf : Table)
    (transformations : List (String × String)) : AnonReport :=
  { original_columns := originalDf.length
    anonymized_columns := anonymizedDf.length
    columns_removed := originalDf.length - anonymizedDf.length
    transformations_applied := transformations.length
    transformation_details := transformations
    data_preserved :=
      { rows := anonymizedDf.nrows
        usable_columns := (anonymizedDf.filter
          (fun c => (dropna c.2).length > 0)).length }
    validation := none }

/-! ## Orchestrator (`integration/orchestrator.py`) -/

/-- How an analyzer can fail in the thread pool: an exception with a
message, or a timeout. -/
inductive AnalyzerFailure where
  | exn (msg : String)
  | timeout
deriving DecidableEq, Repr

/-- The error string the orchestrator records for a failure (`str(e)` or
the literal `"timeout"`). -/
def failureMsg : AnalyzerFailure → String
  | .exn m => m
  | .timeout => "timeout"

/-- The `summary` of `_get_error_result`. -/
structure ErrorSummary where
  error : Bool
  error_message : String
  analyzer : String
deriving DecidableEq, Repr

/-- `_get_error_result`'s placeholder (its `analysis_timestamp` is a
wall-clock reading, modelled outside the record). -/
structure ErrorResult where
  summary : ErrorSummary
  recommendations : List Recommendation
deriving DecidableEq, Repr

/-- `_get_error_result`. -/
def getErrorResult (analyzerName errorMsg : String) : ErrorResult :=
  { summary :=
      { error := true, error_message := errorMsg, analyzer := analyzerName }
    recommendations :=
      [{ priority := "critica"
         field := "general"
         issue := s!"Analizador {analyzerName} falló"
         action := "Revisar logs para más detalles"
         impact := "No se pudo completar este análisis" }] }

/-- A slot of the results dict: one of the six analyzer results, or an
error placeholder. -/
inductive SlotValue where
  | completeness (r : CompletenessResult)
  | typology (r : TypologyResult)
  | semantic (r : SemanticResult)
  | geospatial (r : GeospatialResult)
  | anonymization (r : AnonymizationResult)
  | ml (r : MLResult)
  | failed (e : ErrorResult)
deriving DecidableEq, Repr

/-- The keys of the `analyzers` dict, in insertion order. -/
def analyzerNames : List String :=
  ["completeness", "typology", "semantic", "geospatial", "anonymization",
   "ml_readiness"]

/-- One analyzer applied to the dataframe (the dispatch table of
`_run_analyzers_parallel`); an exception the analyzer itself raises is
caught there and becomes an error placeholder. -/
def runOneAnalyzer (oracle : StatsOracle) (today : SDate) (df : Table)
    (name : String) : SlotValue :=
  if name = "completeness" then
    match analyzeCompleteness df with
    | .ok r => .completeness r
    | .error m => .failed (getErrorResult name m)
  else if name = "typology" then
    match analyzeTypology df with
    | .ok r => .typology r
    | .error m => .failed (getErrorResult name m)
  else if name = "semantic" then
    match analyzeSemantic df today with
    | .ok r => .semantic r
    | .error m => .failed (getErrorResult name m)
  else if name = "geospatial" then
    match analyzeGeospatial df with
    | .ok r => .geospatial r
    | .error m => .failed (getErrorResult name m)
  else if name = "anonymization" then
    match analyzeAnonymization df with
    | .ok r => .anonymization r
    | .error m => .failed (getErrorResult name m)
  else
    match analyzeMlReadiness oracle df with
    | .ok r => .ml r
    | .error m => .failed (getErrorResult name m)

/-- The slot an analyzer contributes under a failure assignment `fail`
(a worker exception or timeout injected by the environment): its own
result when unaffected, `_get_error_result` on a failure. -/
def slotAt (oracle : StatsOracle) (today : SDate)
    (fail : String → Option AnalyzerFailure) (df : Table) (name : String) :
    SlotValue :=
  match fail name with
  | some f => SlotValue.failed (getErrorResult name (failureMsg f))
  | none => runOneAnalyzer oracle today df name

/-- `_run_analyzers_parallel`, parameterized by an arbitrary assignment
`fail` of environment-induced failures (a worker exception or timeout)
to analyzer names.  `as_completed` fills the dict in completion order;
as every later access is by key, submission order is used. -/
def collectResults (oracle : StatsOracle) (today : SDate)
    (fail : String → Option AnalyzerFailure) (df : Table) :
    List (String × SlotValue) :=
  analyzerNames.map (fun name => (name, slotAt oracle today fail df name))

/-- The `metadata` dict (`analysis_date`, a wall-clock reading, is
modelled outside the record). -/
structure Metadata where
  filename : String
  rows : ℕ
  columns : ℕ
  column_names : List String
  auto_anonymized : Bool
deriving DecidableEq, Repr

/-- The consolidated JSON: metadata plus the six analyzer slots under
their Spanish keys. -/
structure Consolidated where
  metadata : Metadata
  completitud : SlotValue
  tipos : SlotValue
  semantica : SlotValue
  geoespacial : SlotValue
  anonimizacion : SlotValue
  ml : SlotValue
deriving DecidableEq, Repr

/-- The consolidated slot stored under each analyzer's dict key. -/
def consolidatedSlot (c : Consolidated) : String → Option SlotValue
  | "completeness" => some c.completitud
  | "typology" => some c.tipos
  | "semantic" => some c.semantica
  | "geospatial" => some c.geoespacial
  | "anonymization" => some c.anonimizacion
  | "ml_readiness" => some c.ml
  | _ => none

/-- The consolidation step of `run_parallel_analysis`.  The results dict
always carries all six keys (a missing key would be a Python
`KeyError`); the `getD` defaults are unreachable for `collectResults`
output.  The Pydantic validation round-trip only logs on failure and is
identity on the data. -/
def consolidate (metadata : Metadata) (results : List (String × SlotValue)) :
    Consolidated :=
  let at_ := fun name =>
    (results.lookup name).getD (SlotValue.failed (getErrorResult name "missing"))
  { metadata := metadata
    completitud := at_ "completeness"
    tipos := at_ "typology"
    semantica := at_ "semantic"
    geoespacial := at_ "geospatial"
    anonimizacion := at_ "anonymization"
    ml := at_ "ml_readiness" }

/-- `run_parallel_analysis`.  Exceptions become `.error` with the
exception's message; a failed anonymization slot combined with
`auto_anonymize` makes `anon_result["summary"]["pii_detected"]` raise a
`KeyError` (the error placeholder's summary has no such key), rendered
here as the corresponding error message.  This is step 2 of
`run_parallel_analysis`. -/
def anonymizeStep (df : Table) (slot : Option SlotValue) :
    Except String (Table × Option AnonReport) :=
  match slot with
  | some (SlotValue.anonymization anonResult) =>
    if anonResult.summary.pii_detected then
      let p := anonymizeDataframe df anonResult.columns_with_pii "mask"
      let report := generateAnonymizationReport df p.1 p.2
      .ok (p.1,
        some { report with validation := some (validateAnonymization p.1) })
    else .ok (df, none)
  | some (SlotValue.failed _) => .error "KeyError: \x27pii_detected\x27"
  | _ => .ok (df, none)

/-- `run_parallel_analysis` proper. -/
def runParallelAnalysis (oracle : StatsOracle) (today : SDate)
    (fail : String → Option AnalyzerFailure) (df : Table) (filename : String)
    (auto_anonymize : Bool) :
    Except String (Consolidated × Table × Option AnonReport) :=
  if df.isEmpty then .error "El DataFrame está vacío"
  else
    let metadata : Metadata :=
      { filename := filename
        rows := df.nrows
        columns := df.length
        column_names := df.colNames
        auto_anonymized := auto_anonymize }
    let results := collectResults oracle today fail df
    let anonStep2 : Except String (Table × Option AnonReport) :=
      if auto_anonymize then anonymizeStep df (results.lookup "anonymization")
      else .ok (df, none)
    match anonStep2 with
    | .error m => .error m
    | .ok p => .ok (consolidate metadata results, p.1, p.2)

/-- An everywhere-zero statistical oracle, for concrete runs. -/
def zeroOracle : StatsOracle := ⟨fun _ => 0, fun _ _ => 0⟩

/-- A table with one column and no rows (`df.empty` holds). -/
def emptyDemoTable : Table := [("edad", [])]

/-- The Python exception class of every analyzer's empty-input guard: each
one executes `raise ValueError("El DataFrame está vacío")`.  The `.error`
values of the embedding carry the exception's message; this constant
records its class. -/
def emptyInputErrorClass : String := "ValueError"

/-- A two-column demo table: a critical non-PII column and a name
column the PII analyzer flags. -/
def mixedDemoTable : Table :=
  [("edad", [CellValue.num 34, CellValue.num 45]),
   ("nombre", [CellValue.str "Juan Perez", CellValue.str "Ana Gomez"])]

/-! ## Lemmas about SHA-256 hex digests and the anonymizer -/

theorem sha256Round_length (st : List ℕ) (kw : ℕ × ℕ) :
    (sha256Round st kw).length = 8 := rfl

theorem foldl_sha256Round_length (l : List (ℕ × ℕ)) :
    ∀ st : List ℕ, st.length = 8 → (l.foldl sha256Round st).length = 8 := by
  induction l with
  | nil => intro st h; exact h
  | cons kw rest ih =>
    intro st h
    exact ih (sha256Round st kw) (sha256Round_length st kw)

theorem sha256Compress_length (hstate block : List ℕ) (h : hstate.length = 8) :
    (sha256Compress hstate block).length = 8 := by
  unfold sha256Compress
  rw [List.length_map, List.length_zip, h,
    foldl_sha256Round_length _ hstate h]
  rfl

theorem sha256Words_length (msg : List ℕ) : (sha256Words msg).length = 8 := by
  unfold sha256Words
  generalize chunks64 (sha256Pad msg) = blocks
  have h0 : (sha256H0).length = 8 := rfl
  revert h0
  generalize sha256H0 = st
  induction blocks generalizing st with
  | nil => intro h; exact h
  | cons b rest ih =>
    intro h
    exact ih (sha256Compress st b) (sha256Compress_length st b h)

theorem word32Hex_length (w : ℕ) : (word32Hex w).length = 8 := by
  simp [word32Hex]

theorem sha256HexChars_length (msg : List ℕ) :
    (sha256HexChars msg).length = 64 := by
  unfold sha256HexChars
  rw [List.flatMap_def, List.length_flatten, List.map_map]
  have hmap : (sha256Words msg).map (List.length ∘ word32Hex)
      = (sha256Words msg).map (fun _ => 8) :=
    List.map_congr_left (fun w _ => word32Hex_length w)
  rw [hmap, List.map_const', List.sum_replicate, sha256Words_length, smul_eq_mul]

theorem nibbleToHex_hex (n : ℕ) : isHexLowerChar (nibbleToHex n) = true := by
  unfold nibbleToHex
  split <;> decide

theorem sha256HexChars_hex (msg : List ℕ) :
    ∀ c ∈ sha256HexChars msg, isHexLowerChar c = true := by
  intro c hc
  rcases List.mem_flatMap.1 hc with ⟨w, -, hcw⟩
  rcases List.mem_map.1 hcw with ⟨i, -, rfl⟩
  exact nibbleToHex_hex _

theorem hashValue_length (s : String) : (hashValue s).length = 16 := by
  show (String.mk ((sha256HexChars (utf8Encode s)).take 16)).length = 16
  have : (String.mk ((sha256HexChars (utf8Encode s)).take 16)).length
      = ((sha256HexChars (utf8Encode s)).take 16).length := rfl
  rw [this, List.length_take, sha256HexChars_length]
  rfl

theorem hashValue_hex (s : String) :
    ∀ c ∈ (hashValue s).toList, isHexLowerChar c = true := by
  intro c hc
  have hc2 : c ∈ sha256HexChars (utf8Encode s) :=
    List.take_subset 16 _ hc
  exact sha256HexChars_hex _ c hc2

theorem setCol_preserves {t : Table} {col : String} {vals : List CellValue}
    {e : String × List CellValue} (hne : e.1 ≠ col) (he : e ∈ t) :
    e ∈ setCol t col vals := by
  refine List.mem_map.2 ⟨e, he, ?_⟩
  rw [if_neg]
  simpa using hne

theorem anonStep_preserves {strategy col : String}
    {acc : Table × List (String × String)} {e : String × List CellValue}
    (hne : e.1 ≠ col) (he : e ∈ acc.1) : e ∈ (anonStep strategy acc col).1 := by
  unfold anonStep
  split
  · exact he
  · dsimp only
    split_ifs <;>
      first
        | exact setCol_preserves hne he
        | exact List.mem_filter.2 ⟨he, bne_iff_ne.2 hne⟩

theorem anonFold_preserves (strategy : String) :
    ∀ (pii : List String) (acc : Table × List (String × String))
      (e : String × List CellValue), e ∈ acc.1 → e.1 ∉ pii →
      e ∈ (pii.foldl (anonStep strategy) acc).1 := by
  intro pii
  induction pii with
  | nil => intro acc e he _; exact he
  | cons col rest ih =>
    intro acc e he hnin
    have hne : e.1 ≠ col := fun hcon => hnin (by simp [hcon])
    have hnin2 : e.1 ∉ rest := fun hcon => hnin (List.mem_cons_of_mem _ hcon)
    exact ih (anonStep strategy acc col) e (anonStep_preserves hne he) hnin2

/-! ## Lemmas about the PII analyzer -/

theorem detectPersonNames_risk_nonneg (series : List String) (c : String) :
    0 ≤ (detectPersonNames series c).risk_score := by
  simp only [detectPersonNames, piiMiss]
  split_ifs <;> norm_num

theorem detectEmails_risk_nonneg (series : List String) (c : String) :
    0 ≤ (detectEmails series c).risk_score := by
  simp only [detectEmails, piiMiss]
  split_ifs <;> norm_num

theorem detectPhones_risk_nonneg (series : List String) (c : String) :
    0 ≤ (detectPhones series c).risk_score := by
  simp only [detectPhones, piiMiss]
  split_ifs <;> norm_num

theorem detectAddresses_risk_nonneg (series : List String) (c : String) :
    0 ≤ (detectAddresses series c).risk_score := by
  simp only [detectAddresses, piiMiss]
  split_ifs <;> norm_num

theorem detectIdNumbers_risk_nonneg (series : List String) (c : String) :
    0 ≤ (detectIdNumbers series c).risk_score := by
  simp only [detectIdNumbers, piiMiss]
  split_ifs <;> norm_num

theorem detectIban_risk_nonneg (series : List String) (c : String) :
    0 ≤ (detectIban series c).risk_score := by
  simp only [detectIban, piiMiss]
  split_ifs <;> norm_num

theorem detectCreditCards_risk_nonneg (series : List String) (c : String) :
    0 ≤ (detectCreditCards series c).risk_score := by
  simp only [detectCreditCards, piiMiss]
  split_ifs <;> norm_num

theorem runDetector_risk_nonneg {et : String} {series : List String} {c : String}
    {d : PIIDetection} (h : runDetector et series c = some d) : 0 ≤ d.risk_score := by
  unfold runDetector at h
  cases hf : piiDetectors.find? (fun p => p.1 == et) with
  | none => rw [hf] at h; cases h
  | some p =>
    rw [hf] at h
    simp only [Option.map_some'] at h
    have hd : p.2 series c = d := Option.some.inj h
    have hmem : p ∈ piiDetectors := List.mem_of_find?_eq_some hf
    subst hd
    simp only [piiDetectors, List.mem_cons, List.not_mem_nil, or_false] at hmem
    rcases hmem with rfl | rfl | rfl | rfl | rfl | rfl | rfl
    · exact detectPersonNames_risk_nonneg series c
    · exact detectEmails_risk_nonneg series c
    · exact detectPhones_risk_nonneg series c
    · exact detectAddresses_risk_nonneg series c
    · exact detectIdNumbers_risk_nonneg series c
    · exact detectIban_risk_nonneg series c
    · exact detectCreditCards_risk_nonneg series c

theorem piiFold_all {P : PIIDetection → Prop} {colData : List String} {c : String}
    (hdet : ∀ et d, runDetector et colData c = some d → P d) :
    ∀ (ets : List String) (acc : List PIIDetection), (∀ x ∈ acc, P x) →
      ∀ x ∈ ets.foldl (piiFoldStep colData c) acc, P x := by
  intro ets
  induction ets with
  | nil => intro acc hacc x hx; exact hacc x hx
  | cons et rest ih =>
    intro acc hacc x hx
    refine ih (piiFoldStep colData c acc et) ?_ x hx
    intro y hy
    unfold piiFoldStep at hy
    split at hy
    · rename_i d hd
      split at hy
      · rcases List.mem_append.1 hy with h | h
        · exact hacc y h
        · simp only [List.mem_singleton] at h; subst h; exact hdet _ _ hd
      · exact hacc y hy
    · exact hacc y hy

theorem piiFold_subset {colData : List String} {c : String} :
    ∀ (ets : List String) (acc : List PIIDetection) (x : PIIDetection),
      x ∈ acc → x ∈ ets.foldl (piiFoldStep colData c) acc := by
  intro ets
  induction ets with
  | nil => intro acc x hx; exact hx
  | cons et rest ih =>
    intro acc x hx
    refine ih (piiFoldStep colData c acc et) x ?_
    unfold piiFoldStep
    split
    · split
      · exact List.mem_append.2 (Or.inl hx)
      · exact hx
    · exact hx

theorem piiFold_mem {colData : List String} {c : String} {et : String}
    {d : PIIDetection} (hd : runDetector et colData c = some d) (hc : 0 < d.count) :
    ∀ (ets : List String), et ∈ ets →
      ∀ acc, d ∈ ets.foldl (piiFoldStep colData c) acc := by
  intro ets
  induction ets with
  | nil => intro hmem; cases hmem
  | cons et0 rest ih =>
    intro hmem acc
    rcases List.mem_cons.1 hmem with heq | hmem0
    · subst heq
      simp only [List.foldl_cons]
      have hstep : piiFoldStep colData c acc et = acc ++ [d] := by
        simp only [piiFoldStep, hd]
        exact if_pos hc
      rw [hstep]
      exact piiFold_subset rest _ d
        (List.mem_append.2 (Or.inr (List.mem_singleton.2 rfl)))
    · exact ih hmem0 _

theorem analyzeColumnPii_risk_nonneg (n : String) (vs : List CellValue) :
    0 ≤ (analyzeColumnPii n vs).column_risk_score := by
  simp only [analyzeColumnPii]
  split
  · norm_num
  · dsimp only
    refine List.sum_nonneg ?_
    intro q hq
    rcases List.mem_map.1 hq with ⟨d, hd, rfl⟩
    exact piiFold_all (fun et d h => runDetector_risk_nonneg h) piiEntities [] (by simp) d hd

theorem analyzeColumnPii_not_pii_risk (n : String) (vs : List CellValue)
    (h : (analyzeColumnPii n vs).has_pii = false) :
    (analyzeColumnPii n vs).column_risk_score = 0 := by
  revert h
  simp only [analyzeColumnPii]
  split
  · intro _; rfl
  · dsimp only
    intro h
    simp only [Bool.not_eq_false', List.isEmpty_iff] at h
    rw [h]
    simp

theorem analyzeColumnPii_if_risk (n : String) (vs : List CellValue) :
    (if (analyzeColumnPii n vs).has_pii then (analyzeColumnPii n vs).column_risk_score
     else 0) = (analyzeColumnPii n vs).column_risk_score := by
  by_cases h : (analyzeColumnPii n vs).has_pii
  · rw [if_pos h]
  · have hf : (analyzeColumnPii n vs).has_pii = false := by simpa using h
    rw [if_neg h, analyzeColumnPii_not_pii_risk n vs hf]

theorem determineRiskLevel_cases {s : ℚ} (h0 : 0 ≤ s) :
    (s < 3 ∧ determineRiskLevel s = "bajo") ∨
    (3 ≤ s ∧ s < 5 ∧ determineRiskLevel s = "moderado") ∨
    (5 ≤ s ∧ s < 7 ∧ determineRiskLevel s = "alto") ∨
    (7 ≤ s ∧ determineRiskLevel s = "critico") := by
  rcases lt_or_le s 3 with h3 | h3
  · have e1 : (decide ((0:ℚ) ≤ s ∧ s < 3)) = true := decide_eq_true ⟨h0, h3⟩
    exact Or.inl ⟨h3, by simp [determineRiskLevel, piiRiskLevels, List.find?, e1]⟩
  rcases lt_or_le s 5 with h5 | h5
  · have e1 : (decide ((0:ℚ) ≤ s ∧ s < 3)) = false :=
      decide_eq_false (fun hcon => absurd hcon.2 (not_lt.2 h3))
    have e2 : (decide ((3:ℚ) ≤ s ∧ s < 5)) = true := decide_eq_true ⟨h3, h5⟩
    exact Or.inr (Or.inl ⟨h3, h5,
      by simp [determineRiskLevel, piiRiskLevels, List.find?, e1, e2]⟩)
  rcases lt_or_le s 7 with h7 | h7
  · have e1 : (decide ((0:ℚ) ≤ s ∧ s < 3)) = false :=
      decide_eq_false (fun hcon => absurd hcon.2 (by linarith))
    have e2 : (decide ((3:ℚ) ≤ s ∧ s < 5)) = false :=
      decide_eq_false (fun hcon => absurd hcon.2 (not_lt.2 h5))
    have e3 : (decide ((5:ℚ) ≤ s ∧ s < 7)) = true := decide_eq_true ⟨h5, h7⟩
    exact Or.inr (Or.inr (Or.inl ⟨h5, h7,
      by simp [determineRiskLevel, piiRiskLevels, List.find?, e1, e2, e3]⟩))
  have e1 : (decide ((0:ℚ) ≤ s ∧ s < 3)) = false :=
    decide_eq_false (fun hcon => absurd hcon.2 (by linarith))
  have e2 : (decide ((3:ℚ) ≤ s ∧ s < 5)) = false :=
    decide_eq_false (fun hcon => absurd hcon.2 (by linarith))
  have e3 : (decide ((5:ℚ) ≤ s ∧ s < 7)) = false :=
    decide_eq_false (fun hcon => absurd hcon.2 (not_lt.2 h7))
  refine Or.inr (Or.inr (Or.inr ⟨h7, ?_⟩))
  rcases lt_or_le s 10 with h10 | h10
  · have e4 : (decide ((7:ℚ) ≤ s ∧ s < 10)) = true := decide_eq_true ⟨h7, h10⟩
    simp [determineRiskLevel, piiRiskLevels, List.find?, e1, e2, e3, e4]
  · have e4 : (decide ((7:ℚ) ≤ s ∧ s < 10)) = false :=
      decide_eq_false (fun hcon => absurd hcon.2 (not_lt.2 h10))
    simp [determineRiskLevel, piiRiskLevels, List.find?, e1, e2, e3, e4]

theorem determineRiskLevel_iffs {s : ℚ} (h0 : 0 ≤ s) :
    (determineRiskLevel s = "bajo" ↔ s < 3) ∧
    (determineRiskLevel s = "moderado" ↔ 3 ≤ s ∧ s < 5) ∧
    (determineRiskLevel s = "alto" ↔ 5 ≤ s ∧ s < 7) ∧
    (determineRiskLevel s = "critico" ↔ 7 ≤ s) := by
  rcases determineRiskLevel_cases h0 with ⟨h, hl⟩ | ⟨h1, h2, hl⟩ | ⟨h1, h2, hl⟩ | ⟨h1, hl⟩ <;>
    rw [hl]
  · exact ⟨iff_of_true rfl h,
      iff_of_false (by decide) (by rintro ⟨hb, -⟩; linarith),
      iff_of_false (by decide) (by rintro ⟨hb, -⟩; linarith),
      iff_of_false (by decide) (by intro hb; linarith)⟩
  · exact ⟨iff_of_false (by decide) (by intro hb; linarith),
      iff_of_true rfl ⟨h1, h2⟩,
      iff_of_false (by decide) (by rintro ⟨hb, -⟩; linarith),
      iff_of_false (by decide) (by intro hb; linarith)⟩
  · exact ⟨iff_of_false (by decide) (by intro hb; linarith),
      iff_of_false (by decide) (by rintro ⟨-, hb⟩; linarith),
      iff_of_true rfl ⟨h1, h2⟩,
      iff_of_false (by decide) (by intro hb; linarith)⟩
  · exact ⟨iff_of_false (by decide) (by intro hb; linarith),
      iff_of_false (by decide) (by rintro ⟨-, hb⟩; linarith),
      iff_of_false (by decide) (by rintro ⟨-, hb⟩; linarith),
      iff_of_true rfl h1⟩

/-! ## Lemmas about the geospatial analyzer -/

theorem getD_map_toNumericCell (l : List CellValue) (i : ℕ) (hd : i < l.length) :
    (l.map toNumericCell).getD i none
      = toNumericCell (l.getD i CellValue.null) := by
  rw [List.getD_eq_getElem?_getD, List.getD_eq_getElem?_getD, List.getElem?_map,
    List.getElem?_eq_getElem hd]
  rfl

theorem analyzeCoordinates_coverage_all (df : Table) (latc lonc : String)
    (hpos : 0 < df.nrows)
    (hval : ∀ i < df.nrows,
      coordRowValid ((df.col latc).map toNumericCell)
        ((df.col lonc).map toNumericCell) i = true) :
    (analyzeCoordinates df latc lonc).coverage = 1 := by
  unfold analyzeCoordinates
  dsimp only
  have hfilter : (List.range df.nrows).filter
      (coordRowValid ((df.col latc).map toNumericCell)
        ((df.col lonc).map toNumericCell)) = List.range df.nrows :=
    List.filter_eq_self.2 (fun i hi => hval i (List.mem_range.1 hi))
  rw [hfilter, List.length_range, if_pos hpos]
  exact div_self (Nat.cast_ne_zero.2 hpos.ne')

theorem assessGeocoding_excellent (ca : CoordinatesAnalysis)
    (aa : Option AddressAnalysis) (ma : Option MunicipalityAnalysis)
    (h0 : 0 < ca.coverage) (h7 : GEOSPATIAL_MIN_COVERAGE ≤ ca.coverage) :
    assessGeocodingCapability (some ca) aa ma
      = { has_coordinates := true, has_addresses := false,
          has_municipalities := false, coverage := ca.coverage,
          method := some "coordenadas_directas", quality := "excelente" } := by
  unfold assessGeocodingCapability
  dsimp only
  rw [if_pos h0, if_pos h7]

/-! ## Claim theorems: PII analyzer -/

/-- **C3.** For every non-empty table, the PII analyzer's dataset risk
score equals the mean over all columns of the per-column risk (the sum of
the column's entity risk contributions, zero for columns without PII)
multiplied by 10 and capped at 10, so the score lies in `[0, 10]`; the
risk level is `bajo` below 3, `moderado` in `[3, 5)`, `alto` in `[5, 7)`
and `critico` at 7 or above; `requires_action` holds exactly when the
score reaches the configured threshold `PII_RISK_THRESHOLD = 5`. -/
theorem pii_risk_score_formula_levels (df : Table) (r : AnonymizationResult)
    (h : analyzeAnonymization df = Except.ok r) :
    r.summary.risk_score
        = min 10 ((df.map (fun c => piiColumnRisk c.1 c.2)).sum / (df.length : ℚ) * 10)
    ∧ 0 ≤ r.summary.risk_score ∧ r.summary.risk_score ≤ 10
    ∧ (r.summary.risk_level = "bajo" ↔ r.summary.risk_score < 3)
    ∧ (r.summary.risk_level = "moderado" ↔
        3 ≤ r.summary.risk_score ∧ r.summary.risk_score < 5)
    ∧ (r.summary.risk_level = "alto" ↔
        5 ≤ r.summary.risk_score ∧ r.summary.risk_score < 7)
    ∧ (r.summary.risk_level = "critico" ↔ 7 ≤ r.summary.risk_score)
    ∧ (r.summary.requires_action = true ↔ PII_RISK_THRESHOLD ≤ r.summary.risk_score) := by
  unfold analyzeAnonymization at h
  split at h
  · exact absurd h (by simp)
  · rename_i hne
    have hlen : 0 < df.length := by
      rcases Nat.eq_zero_or_pos df.length with h0 | h0
      · exact absurd (by simp [Table.isEmpty, h0]) hne
      · exact h0
    simp only [Except.ok.injEq] at h
    subst h
    dsimp only
    rw [if_pos hlen]
    have hsum :
        ((df.map (fun c => (c.1, analyzeColumnPii c.1 c.2))).map
            (fun c => if c.2.has_pii then c.2.column_risk_score else (0:ℚ))).sum
          = (df.map (fun c => piiColumnRisk c.1 c.2)).sum := by
      rw [List.map_map]
      congr 1
      refine List.map_congr_left ?_
      intro a _
      exact analyzeColumnPii_if_risk a.1 a.2
    rw [hsum]
    have hnn : (0:ℚ) ≤ (df.map (fun c => piiColumnRisk c.1 c.2)).sum := by
      refine List.sum_nonneg ?_
      intro q hq
      rcases List.mem_map.1 hq with ⟨a, -, rfl⟩
      exact analyzeColumnPii_risk_nonneg a.1 a.2
    have hx : (0:ℚ) ≤ (df.map (fun c => piiColumnRisk c.1 c.2)).sum / (df.length : ℚ) * 10 := by
      have : (0:ℚ) ≤ (df.length : ℚ) := by positivity
      exact mul_nonneg (div_nonneg hnn this) (by norm_num)
    have h0 : (0:ℚ) ≤ min 10 ((df.map (fun c => piiColumnRisk c.1 c.2)).sum / (df.length : ℚ) * 10) :=
      le_min (by norm_num) hx
    obtain ⟨i1, i2, i3, i4⟩ := determineRiskLevel_iffs h0
    refine ⟨rfl, h0, min_le_left _ _, i1, i2, i3, i4, ?_⟩
    simp [PII_RISK_THRESHOLD, ge_iff_le]

/-- Witness for C3 at the one-column name table: the hypotheses hold and
the score is within bounds. -/
theorem pii_risk_score_formula_levels_witness :
    ∃ r, analyzeAnonymization piiNombreTable = Except.ok r ∧
      0 ≤ r.summary.risk_score ∧ r.summary.risk_score ≤ 10 := by
  obtain ⟨r, hr⟩ : ∃ r, analyzeAnonymization piiNombreTable = Except.ok r := ⟨_, rfl⟩
  obtain ⟨-, hb0, hb10, -⟩ := pii_risk_score_formula_levels piiNombreTable r hr
  exact ⟨r, hr, hb0, hb10⟩

/-- **C10.** Any column of a non-empty table whose lowercase name contains
the substring `"id"` (which includes domain names such as `suicidio`) and
which has at least one non-null value is reported as an `ID_NUMBER` entity
whose count is the column's non-null count with risk contribution `3.0`;
consequently `pii_detected` is set and the column is listed in
`columns_with_pii` (the list the orchestrator anonymizes). -/
theorem pii_id_substring_flags_column (df : Table) (name : String)
    (vals : List CellValue) (r : AnonymizationResult)
    (hok : analyzeAnonymization df = Except.ok r)
    (hmem : (name, vals) ∈ df)
    (hid : strContainsSub (strLower name) "id" = true)
    (hnn : dropna vals ≠ []) :
    (∃ e ∈ r.entities_found, e.type = "ID_NUMBER" ∧ e.column = name ∧
        e.count = (dropna vals).length ∧ e.risk_contribution = 3)
    ∧ r.summary.pii_detected = true
    ∧ name ∈ r.columns_with_pii := by
  -- the detector fires on the column via the `"id"` keyword
  have hlen0 : dropnaStr vals ≠ [] := by
    simpa [dropnaStr, List.map_eq_nil_iff] using hnn
  have hkw : (["dni", "rut", "cedula", "identificacion", "id"].any
      (fun kw => strContainsSub (strLower name) kw)) = true :=
    List.any_eq_true.2 ⟨"id", by simp, hid⟩
  have hdid : detectIdNumbers (dropnaStr vals) name =
      { type := "ID_NUMBER", count := (dropnaStr vals).length,
        examples := (dropnaStr vals).take 2, risk_score := 3,
        confidence := "alta" } := by
    simp only [detectIdNumbers]
    rw [if_pos hkw]
  have hdet : runDetector "ID_NUMBER" (dropnaStr vals) name =
      some (detectIdNumbers (dropnaStr vals) name) := rfl
  have hcount : 0 < (detectIdNumbers (dropnaStr vals) name).count := by
    rw [hdid]
    exact List.length_pos.2 hlen0
  have hmemId : detectIdNumbers (dropnaStr vals) name ∈
      piiEntities.foldl (piiFoldStep (dropnaStr vals) name) [] :=
    piiFold_mem hdet hcount piiEntities (by simp [piiEntities]) []
  -- hence the column analysis reports PII
  have hne : ¬((dropnaStr vals).length = 0) := by
    simpa [List.length_eq_zero] using hlen0
  have hcpE : (analyzeColumnPii name vals).entities =
      piiEntities.foldl (piiFoldStep (dropnaStr vals) name) [] := by
    simp only [analyzeColumnPii]
    rw [if_neg hne]
  have hcpP : (analyzeColumnPii name vals).has_pii = true := by
    have hne3 : piiEntities.foldl (piiFoldStep (dropnaStr vals) name) [] ≠ [] :=
      List.ne_nil_of_mem hmemId
    simp only [analyzeColumnPii]
    rw [if_neg hne]
    dsimp only
    rw [Bool.not_eq_true']
    exact Bool.eq_false_iff.2 (fun hE => hne3 (List.isEmpty_iff.1 hE))
  -- lift through `analyze_anonymization`
  unfold analyzeAnonymization at hok
  split at hok
  · exact absurd hok (by simp)
  · rename_i hnemp
    simp only [Except.ok.injEq] at hok
    subst hok
    dsimp only
    have hmemCol : (name, analyzeColumnPii name vals) ∈
        df.map (fun c => (c.1, analyzeColumnPii c.1 c.2)) :=
      List.mem_map_of_mem _ hmem
    have hmemFilter : (name, analyzeColumnPii name vals) ∈
        (df.map (fun c => (c.1, analyzeColumnPii c.1 c.2))).filter
          (fun c => c.2.has_pii) :=
      List.mem_filter.2 ⟨hmemCol, hcpP⟩
    refine ⟨?_, ?_, ?_⟩
    · refine ⟨{ type := (detectIdNumbers (dropnaStr vals) name).type,
                column := name,
                count := (detectIdNumbers (dropnaStr vals) name).count,
                examples := (detectIdNumbers (dropnaStr vals) name).examples.take 2,
                risk_contribution := (detectIdNumbers (dropnaStr vals) name).risk_score },
              ?_, ?_, rfl, ?_, ?_⟩
      · refine List.mem_flatMap.2 ⟨(name, analyzeColumnPii name vals), hmemFilter, ?_⟩
        refine List.mem_map.2 ⟨detectIdNumbers (dropnaStr vals) name, ?_, rfl⟩
        rw [hcpE]
        exact hmemId
      · rw [hdid]
      · rw [hdid]
        simp [dropnaStr]
      · rw [hdid]
    · exact List.any_eq_true.2 ⟨(name, analyzeColumnPii name vals), hmemCol, hcpP⟩
    · exact List.mem_map.2 ⟨(name, analyzeColumnPii name vals), hmemFilter, rfl⟩

/-- **C4.** On a table whose `edad` column holds exactly `[-5, 34, 150,
45]`, the Semantic Analyzer reports exactly two age issues, both of
severity `critica` — the negative age at row 0 and the age above 120 at
row 2 — and no issue for rows 1 and 3; and `_analyze_age` reports exactly
that list for any table whose `edad`-like column holds those values. -/
theorem semantic_age_scenario :
    (∃ r, analyzeSemantic edadDemoTable demoToday = Except.ok r ∧
      r.edad_invalida =
        [{ row := 0, value := -5, issue := "Edad negativa", severity := "critica" },
         { row := 2, value := 150, issue := "Edad superior a 120 años",
           severity := "critica" }]) ∧
    ∀ (df : Table) (col : String),
      df.col col = [CellValue.num (-5), CellValue.num 34, CellValue.num 150,
        CellValue.num 45] →
      analyzeAge df col =
        [{ row := 0, value := -5, issue := "Edad negativa", severity := "critica" },
         { row := 2, value := 150, issue := "Edad superior a 120 años",
           severity := "critica" }] := by
  constructor
  · refine ⟨_, rfl, ?_⟩
    decide
  · intro df col hcol
    unfold analyzeAge
    rw [hcol]
    decide

/-- Witness for C4's universally quantified part at the scenario table. -/
theorem semantic_age_scenario_witness :
    analyzeAge edadDemoTable "edad" =
      [{ row := 0, value := -5, issue := "Edad negativa", severity := "critica" },
       { row := 2, value := 150, issue := "Edad superior a 120 años",
         severity := "critica" }] :=
  semantic_age_scenario.2 edadDemoTable "edad" (by decide)

/-- **C6.** For every non-empty table consisting of the columns `latitud`
and `longitud` in which every row coerces to a numeric pair with latitude
in `[-90, 90]`, longitude in `[-180, 180]`, and not both within `0.001`
of zero, the Geospatial Analyzer reports coverage `1.0`, primary method
`coordenadas_directas`, and quality `excelente`; and in general the
coordinate path yields quality `excelente` whenever its coverage is at
least the configured minimum `GEOSPATIAL_MIN_COVERAGE = 0.70`. -/
theorem geospatial_full_coordinates (lats lons : List CellValue)
    (r : GeospatialResult)
    (hok : analyzeGeospatial (coordTable lats lons) = Except.ok r)
    (hvalid : ∀ i < lats.length, ∃ la lo : ℚ,
      toNumericCell (lats.getD i CellValue.null) = some la ∧
      toNumericCell (lons.getD i CellValue.null) = some lo ∧
      -90 ≤ la ∧ la ≤ 90 ∧ -180 ≤ lo ∧ lo ≤ 180 ∧
      ¬(|la| < 0.001 ∧ |lo| < 0.001)) :
    r.summary.coverage = 1 ∧
    r.summary.primary_method = some "coordenadas_directas" ∧
    r.summary.quality = "excelente" ∧
    (∀ (ca : CoordinatesAnalysis) (aa : Option AddressAnalysis)
       (ma : Option MunicipalityAnalysis),
      0 < ca.coverage → GEOSPATIAL_MIN_COVERAGE ≤ ca.coverage →
      (assessGeocodingCapability (some ca) aa ma).quality = "excelente") := by
  have hcol_lat : Table.col (coordTable lats lons) "latitud" = lats := rfl
  have hcol_lon : Table.col (coordTable lats lons) "longitud" = lons := rfl
  have hnrows : Table.nrows (coordTable lats lons) = lats.length := rfl
  have hval : ∀ i < (coordTable lats lons).nrows,
      coordRowValid ((Table.col (coordTable lats lons) "latitud").map toNumericCell)
        ((Table.col (coordTable lats lons) "longitud").map toNumericCell) i = true := by
    intro i hi
    rw [hnrows] at hi
    obtain ⟨la, lo, hla, hlo, h1, h2, h3, h4, h5⟩ := hvalid i hi
    have hlon_lt : i < lons.length := by
      by_contra hge
      rw [List.getD_eq_default _ _ (le_of_not_lt hge)] at hlo
      simp [toNumericCell] at hlo
    rw [hcol_lat, hcol_lon]
    unfold coordRowValid
    rw [getD_map_toNumericCell lats i hi, getD_map_toNumericCell lons i hlon_lt,
      hla, hlo]
    have h6 : (decide (|la| < 0.001) && decide (|lo| < 0.001)) = false := by
      rw [← Bool.decide_and]
      exact decide_eq_false h5
    simp [h1, h2, h3, h4, h6]
  have hnotemp : ¬((coordTable lats lons).isEmpty = true) := by
    intro hempty
    unfold analyzeGeospatial at hok
    rw [if_pos hempty] at hok
    cases hok
  have hpos : 0 < (coordTable lats lons).nrows := by
    rcases Nat.eq_zero_or_pos (coordTable lats lons).nrows with hz | hp
    · exact absurd (by simp [Table.isEmpty, hz]) hnotemp
    · exact hp
  have hcov : (analyzeCoordinates (coordTable lats lons) "latitud" "longitud").coverage
      = 1 := analyzeCoordinates_coverage_all _ _ _ hpos hval
  unfold analyzeGeospatial at hok
  rw [if_neg hnotemp] at hok
  simp only [Except.ok.injEq] at hok
  subst hok
  have hgc := assessGeocoding_excellent
    (analyzeCoordinates (coordTable lats lons) "latitud" "longitud") none none
    (by rw [hcov]; norm_num) (by rw [hcov]; norm_num [GEOSPATIAL_MIN_COVERAGE])
  have hmatchca : (match findColumn (coordTable lats lons) ["latitud", "lat", "latitude"],
      findColumn (coordTable lats lons) ["longitud", "lon", "lng", "longitude"] with
    | some la, some lo => some (analyzeCoordinates (coordTable lats lons) la lo)
    | _, _ => none)
    = some (analyzeCoordinates (coordTable lats lons) "latitud" "longitud") := rfl
  have hmapaa : (findColumn (coordTable lats lons)
      ["direccion", "address", "domicilio"]).map (analyzeAddresses (coordTable lats lons))
    = none := rfl
  have hmapma : (findColumn (coordTable lats lons)
      ["municipio", "comuna", "city", "ciudad", "localidad"]).map
      (fun mc => analyzeMunicipalities (coordTable lats lons) mc
        (findColumn (coordTable lats lons)
          ["region", "provincia", "state", "departamento"]))
    = none := rfl
  refine ⟨?_, ?_, ?_, fun ca aa ma h0 h7 => by
    rw [assessGeocoding_excellent ca aa ma h0 h7]⟩
  all_goals
    dsimp only
    rw [hmatchca, hmapaa, hmapma, hgc]
    simp [generateGeospatialSummary, hcov]

/-- Witness for C6 at a concrete two-row coordinate table. -/
theorem geospatial_full_coordinates_witness :
    ∃ r, analyzeGeospatial coordDemoTable = Except.ok r ∧
      r.summary.coverage = 1 ∧
      r.summary.primary_method = some "coordenadas_directas" ∧
      r.summary.quality = "excelente" := by
  obtain ⟨r, hr⟩ : ∃ r, analyzeGeospatial coordDemoTable = Except.ok r := ⟨_, rfl⟩
  have habs : ∀ q : ℚ, 1 ≤ |q| → ¬(|q| < 0.001 ∧ |(0:ℚ)| ≤ 1) := by
    intro q hq hcon
    have := hcon.1
    norm_num at this
    linarith
  have hvalid : ∀ i < ([CellValue.num 40, CellValue.num (-33)] : List CellValue).length,
      ∃ la lo : ℚ,
      toNumericCell (([CellValue.num 40, CellValue.num (-33)] : List CellValue).getD i
        CellValue.null) = some la ∧
      toNumericCell (([CellValue.num (-3), CellValue.num (-70)] : List CellValue).getD i
        CellValue.null) = some lo ∧
      -90 ≤ la ∧ la ≤ 90 ∧ -180 ≤ lo ∧ lo ≤ 180 ∧
      ¬(|la| < 0.001 ∧ |lo| < 0.001) := by
    intro i hi
    have hi2 : i < 2 := by simpa using hi
    interval_cases i
    · refine ⟨40, -3, by decide, by decide, by norm_num, by norm_num, by norm_num,
        by norm_num, ?_⟩
      intro hcon
      have h1 := hcon.1
      rw [show |(40:ℚ)| = 40 from abs_of_nonneg (by norm_num)] at h1
      norm_num at h1
    · refine ⟨-33, -70, by decide, by decide, by norm_num, by norm_num,
        by norm_num, by norm_num, ?_⟩
      intro hcon
      have h1 := hcon.1
      rw [show |(-33:ℚ)| = 33 from by
        rw [abs_of_nonpos (by norm_num : (-33:ℚ) ≤ 0)]; norm_num] at h1
      norm_num at h1
  obtain ⟨hc, hm, hq, -⟩ := geospatial_full_coordinates
    [CellValue.num 40, CellValue.num (-33)]
    [CellValue.num (-3), CellValue.num (-70)] r hr hvalid
  exact ⟨r, hr, hc, hm, hq⟩

/-- **C7.** `_hash_value` always produces a string of exactly 16
lowercase hexadecimal characters (the SHA-256 hexdigest truncated to 16
characters).  Since this holds for every input string — including strings
that are already such hashes — re-running the `hash` anonymization of
`_anonymize_ids` on an already-hashed column again yields only nulls and
16-character lowercase-hex strings, so the type/shape of hashed values is
stable under re-anonymization. -/
theorem hash_value_sixteen_hex :
    (∀ s : String, (hashValue s).length = 16 ∧
        ∀ c ∈ (hashValue s).toList, isHexLowerChar c = true) ∧
    (∀ (vs : List CellValue) (v : CellValue),
        v ∈ (anonymizeIds vs "hash").1 →
        v = CellValue.null ∨ ∃ hx : String, v = CellValue.str hx ∧
          hx.length = 16 ∧ ∀ c ∈ hx.toList, isHexLowerChar c = true) := by
  constructor
  · intro s
    exact ⟨hashValue_length s, hashValue_hex s⟩
  · intro vs v hv
    have hv2 : v ∈ vs.map
        (fun x => if !x.isNull then CellValue.str (hashValue x.toStr) else x) := by
      simpa [anonymizeIds] using hv
    rcases List.mem_map.1 hv2 with ⟨x, -, rfl⟩
    cases x with
    | null => exact Or.inl (by simp [CellValue.isNull])
    | str s =>
      exact Or.inr ⟨hashValue (CellValue.str s).toStr, by simp [CellValue.isNull],
        hashValue_length _, hashValue_hex _⟩
    | num q =>
      exact Or.inr ⟨hashValue (CellValue.num q).toStr, by simp [CellValue.isNull],
        hashValue_length _, hashValue_hex _⟩

/-- Witness for C7: the hash of a concrete identifier is 16 lowercase hex
characters, and re-hashing a singleton already-hashed column yields a
16-character hex string again. -/
theorem hash_value_sixteen_hex_witness :
    (hashValue "12345678Z").length = 16 ∧
    (CellValue.str (hashValue (hashValue "12345678Z")) = CellValue.null ∨
      ∃ hx : String, CellValue.str (hashValue (hashValue "12345678Z")) = CellValue.str hx ∧
        hx.length = 16 ∧ ∀ c ∈ hx.toList, isHexLowerChar c = true) := by
  refine ⟨(hash_value_sixteen_hex.1 "12345678Z").1, ?_⟩
  refine hash_value_sixteen_hex.2 [CellValue.str (hashValue "12345678Z")]
    (CellValue.str (hashValue (hashValue "12345678Z"))) ?_
  simp [anonymizeIds, CellValue.isNull, CellValue.toStr]

/-- Witness for C10 at a table whose only column is `suicidio` (a domain
word containing `"id"`), holding no identifiers at all. -/
theorem pii_id_substring_flags_column_witness :
    ∃ r, analyzeAnonymization piiDemoTable = Except.ok r ∧
      r.summary.pii_detected = true ∧ "suicidio" ∈ r.columns_with_pii := by
  obtain ⟨r, hr⟩ : ∃ r, analyzeAnonymization piiDemoTable = Except.ok r := ⟨_, rfl⟩
  obtain ⟨-, hdet, hcol⟩ := pii_id_substring_flags_column piiDemoTable "suicidio"
    [CellValue.str "si", CellValue.str "no"] r hr (by simp [piiDemoTable])
    (by decide) (by decide)
  exact ⟨r, hr, hdet, hcol⟩

/-! ## Lemmas about the 950/50 class-balance scenario -/

theorem dedupFold_replicate_mem {α : Type} [DecidableEq α] (a : α) (n : ℕ)
    (acc : List α) (h : acc.contains a = true) :
    List.foldl (fun acc v => if acc.contains v then acc else acc ++ [v]) acc
      (List.replicate n a) = acc := by
  induction n with
  | zero => rfl
  | succ n ih =>
    rw [List.replicate_succ, List.foldl_cons]
    simp only [h, if_true]
    exact ih

theorem dedupFold_replicate {α : Type} [DecidableEq α] (a : α) (n : ℕ)
    (acc : List α) (h : acc.contains a = false) (hn : 0 < n) :
    List.foldl (fun acc v => if acc.contains v then acc else acc ++ [v]) acc
      (List.replicate n a) = acc ++ [a] := by
  cases n with
  | zero => exact absurd hn (by norm_num)
  | succ n =>
    rw [List.replicate_succ, List.foldl_cons]
    simp only [h, if_false, Bool.false_eq_true]
    exact dedupFold_replicate_mem a n (acc ++ [a]) (by simp)

theorem dropna_ml950Col : dropna ml950Col = ml950Col := by
  unfold dropna ml950Col
  rw [List.filter_append, List.filter_replicate, List.filter_replicate]
  simp [CellValue.isNull]

theorem distinctFirst_ml950Col :
    distinctFirst ml950Col = [CellValue.str "si", CellValue.str "no"] := by
  unfold distinctFirst ml950Col
  rw [List.foldl_append]
  rw [dedupFold_replicate (CellValue.str "si") 950 [] (by decide) (by norm_num)]
  rw [dedupFold_replicate (CellValue.str "no") 50 _ (by decide) (by norm_num)]
  rfl

theorem countOcc_ml950Col_si :
    countOcc ml950Col (CellValue.str "si") = 950 := by
  unfold countOcc ml950Col
  rw [List.filter_append, List.filter_replicate, List.filter_replicate]
  norm_num
  decide

theorem countOcc_ml950Col_no :
    countOcc ml950Col (CellValue.str "no") = 50 := by
  unfold countOcc ml950Col
  rw [List.filter_append, List.filter_replicate, List.filter_replicate]
  norm_num
  decide

theorem valueCounts_ml950Col :
    valueCounts ml950Col =
      [(CellValue.str "si", 950), (CellValue.str "no", 50)] := by
  unfold valueCounts valueCountsRaw
  rw [distinctFirst_ml950Col]
  simp only [List.map_cons, List.map_nil]
  rw [countOcc_ml950Col_si, countOcc_ml950Col_no]
  rfl

theorem length_ml950Col : ml950Col.length = 1000 := by
  unfold ml950Col
  rw [List.length_append, List.length_replicate, List.length_replicate]

theorem nuniqueCol_ml950Col : nuniqueCol ml950Col = 2 := by
  unfold nuniqueCol
  rw [dropna_ml950Col, distinctFirst_ml950Col]
  rfl

theorem identifyTarget_ml950 :
    identifyTargetColumn ml950Table = some "tipo_evento" := by
  unfold identifyTargetColumn ml950Table
  dsimp only
  rw [List.find?_cons_of_pos _ (by
    dsimp only
    rw [nuniqueCol_ml950Col]
    decide)]

/-! ## Claim theorems: ML-readiness class balance -/

/-- **C5.** For every identified target with a non-null value, the balance
analysis classifies `balanceado` iff the minimum class proportion is at
least 0.4 and `severamente_desbalanceado` iff it is below 0.1, and sets
`requires_balancing` exactly when that minimum is below the configured
imbalance threshold, which equals 0.20; concretely, on a 1000-row table
whose target splits 950/50 the analysis reports two classes,
`min_class_proportion = 0.05`, level `severamente_desbalanceado`, and
`requires_balancing = true`. -/
theorem ml_class_balance_levels :
    (∀ (df : Table) (target : String) (b : BalanceAnalysis),
        analyzeClassBalance df target = some b →
        ((b.balance_level = "balanceado" ↔ b.min_class_proportion ≥ 0.4) ∧
         (b.balance_level = "severamente_desbalanceado" ↔
            b.min_class_proportion < 0.1) ∧
         (b.requires_balancing = true ↔
            b.min_class_proportion < ML_IMBALANCE_THRESHOLD))) ∧
    ML_IMBALANCE_THRESHOLD = 0.20 ∧
    (∃ b0, mlBalanceOf ml950Table = some b0 ∧
       ml950Table.nrows = 1000 ∧
       b0.n_classes = 2 ∧
       b0.class_distribution =
         [(CellValue.str "si", 950), (CellValue.str "no", 50)] ∧
       b0.min_class_proportion = 0.05 ∧
       b0.balance_level = "severamente_desbalanceado" ∧
       b0.requires_balancing = true) := by
  refine ⟨?_, rfl, ?_⟩
  · intro df target b h
    unfold analyzeClassBalance at h
    dsimp only at h
    by_cases hz : (dropna (Table.col df target)).length = 0
    · rw [if_pos hz] at h
      exact absurd h (by simp)
    · rw [if_neg hz] at h
      rw [Option.some.injEq] at h
      subst h
      refine ⟨?_, ?_, ?_⟩
      · dsimp only
        split_ifs with h1 h2 h3
        · exact iff_of_true rfl h1
        · exact iff_of_false (by decide) h1
        · exact iff_of_false (by decide) h1
        · exact iff_of_false (by decide) h1
      · dsimp only
        split_ifs with h1 h2 h3
        · exact iff_of_false (by decide) (not_lt.2 (le_trans (by norm_num) h1))
        · exact iff_of_false (by decide) (not_lt.2 (le_trans (by norm_num) h2))
        · exact iff_of_false (by decide) (not_lt.2 h3)
        · exact iff_of_true rfl (not_le.1 h3)
      · dsimp only
        exact decide_eq_true_iff
  · have hmb : mlBalanceOf ml950Table =
        analyzeClassBalance ml950Table "tipo_evento" := by
      unfold mlBalanceOf
      rw [identifyTarget_ml950]
      rfl
    have hcol : Table.col ml950Table "tipo_evento" = ml950Col := rfl
    rw [hmb]
    unfold analyzeClassBalance
    dsimp only
    rw [hcol, dropna_ml950Col, length_ml950Col, valueCounts_ml950Col]
    rw [if_neg (by norm_num : ¬(1000 = 0))]
    refine ⟨_, rfl, ?_, ?_, ?_, ?_, ?_, ?_⟩
    · show ml950Col.length = 1000
      exact length_ml950Col
    · dsimp only
      rfl
    · dsimp only
    · dsimp only
      simp only [List.map_cons, List.map_nil, qMin, List.foldl]
      norm_num [min_def]
    · dsimp only
      simp only [List.map_cons, List.map_nil, qMin, List.foldl]
      rw [if_neg (by norm_num [min_def]), if_neg (by norm_num [min_def]),
        if_neg (by norm_num [min_def])]
    · dsimp only
      simp only [List.map_cons, List.map_nil, qMin, List.foldl,
        ML_IMBALANCE_THRESHOLD, decide_eq_true_eq]
      norm_num [min_def]

/-- Witness for C5's general conjunct at the 950/50 table. -/
theorem ml_class_balance_levels_witness :
    ∃ b0, analyzeClassBalance ml950Table "tipo_evento" = some b0 ∧
      (b0.balance_level = "balanceado" ↔ b0.min_class_proportion ≥ 0.4) ∧
      (b0.balance_level = "severamente_desbalanceado" ↔
        b0.min_class_proportion < 0.1) ∧
      (b0.requires_balancing = true ↔
        b0.min_class_proportion < ML_IMBALANCE_THRESHOLD) := by
  obtain ⟨b0, hb0⟩ : ∃ r, analyzeClassBalance ml950Table "tipo_evento" = some r :=
    ⟨_, rfl⟩
  exact ⟨b0, hb0, ml_class_balance_levels.1 ml950Table "tipo_evento" b0 hb0⟩

/-! ## Claim theorems: determinism and the wall clock -/

/-- Counterexample to C8 as stated for the semantic analyzer: on a fixed
table with two date columns holding `2030-06-15`, the run with the clock
reading 2026-10-12 reports future-date incoherencies while the run with
the clock reading 2031-01-01 reports none, so two runs of the analyzer
on the same input differ in an issue list (not merely in timestamps). -/
theorem semantic_clock_dependence :
    ∃ r1 r2, analyzeSemantic fechasDemoTable ⟨2026, 10, 12⟩ = Except.ok r1 ∧
      analyzeSemantic fechasDemoTable ⟨2031, 1, 1⟩ = Except.ok r2 ∧
      r1.fechas_incoherentes ≠ r2.fechas_incoherentes := by
  have hA : (analyzeSemantic fechasDemoTable ⟨2026, 10, 12⟩).map
      SemanticResult.fechas_incoherentes = Except.ok
        [{ row := 0, columns := ["fecha_a"],
           issue := "Fecha futura en 'fecha_a': 2030-06-15",
           severity := "alta" },
         { row := 0, columns := ["fecha_b"],
           issue := "Fecha futura en 'fecha_b': 2030-06-15",
           severity := "alta" }] := rfl
  have hB : (analyzeSemantic fechasDemoTable ⟨2031, 1, 1⟩).map
      SemanticResult.fechas_incoherentes = Except.ok [] := rfl
  obtain ⟨r1, h1⟩ :
      ∃ r, analyzeSemantic fechasDemoTable ⟨2026, 10, 12⟩ = Except.ok r :=
    ⟨_, rfl⟩
  obtain ⟨r2, h2⟩ :
      ∃ r, analyzeSemantic fechasDemoTable ⟨2031, 1, 1⟩ = Except.ok r :=
    ⟨_, rfl⟩
  rw [h1] at hA
  rw [h2] at hB
  simp only [Except.map, Except.ok.injEq] at hA hB
  refine ⟨r1, r2, h1, h2, ?_⟩
  rw [hA, hB]
  decide

/-- **C8** (amended).  Every analyzer is a pure function of the table it
is given, its configuration (the statistical oracle) and the current
wall-clock reading: two runs with equal inputs, equal configuration and
an equal clock reading yield equal results — scores, issue lists and
classifications included.  (The clock reading must be part of the input:
the semantic analyzer's future-date check reads `pd.Timestamp.now()`,
so runs at different times can differ — see the counterexample.) -/
theorem analyzers_deterministic (df df' : Table) (today today' : SDate)
    (oracle oracle' : StatsOracle)
    (hdf : df = df') (ht : today = today') (ho : oracle = oracle') :
    analyzeCompleteness df = analyzeCompleteness df' ∧
    analyzeTypology df = analyzeTypology df' ∧
    analyzeSemantic df today = analyzeSemantic df' today' ∧
    analyzeGeospatial df = analyzeGeospatial df' ∧
    analyzeAnonymization df = analyzeAnonymization df' ∧
    analyzeMlReadiness oracle df = analyzeMlReadiness oracle' df' := by
  subst hdf
  subst ht
  subst ho
  exact ⟨rfl, rfl, rfl, rfl, rfl, rfl⟩

/-- Witness for the amended C8 at a concrete table, clock reading and
oracle. -/
theorem analyzers_deterministic_witness :
    analyzeCompleteness fechasDemoTable = analyzeCompleteness fechasDemoTable ∧
    analyzeTypology fechasDemoTable = analyzeTypology fechasDemoTable ∧
    analyzeSemantic fechasDemoTable demoToday =
      analyzeSemantic fechasDemoTable demoToday ∧
    analyzeGeospatial fechasDemoTable = analyzeGeospatial fechasDemoTable ∧
    analyzeAnonymization fechasDemoTable =
      analyzeAnonymization fechasDemoTable ∧
    analyzeMlReadiness zeroOracle fechasDemoTable =
      analyzeMlReadiness zeroOracle fechasDemoTable :=
  analyzers_deterministic fechasDemoTable fechasDemoTable demoToday demoToday
    zeroOracle zeroOracle rfl rfl rfl

/-! ## Claim theorems: empty input -/

/-- **C2** (with the exception class corrected).  For every table with
zero rows, each of the six analyzers and the orchestrator's
`run_parallel_analysis` fail fast, raising `ValueError("El DataFrame
está vacío")` (modelled as `.error` with that message) rather than
returning a result.  The spec's `EmptyInputError` class does not exist
in the code; the completeness analyzer, like the other five, raises a
plain `ValueError`. -/
theorem empty_table_fails_fast (df : Table) (oracle : StatsOracle)
    (today : SDate) (fail : String → Option AnalyzerFailure)
    (filename : String) (flag : Bool) (h : df.nrows = 0) :
    analyzeCompleteness df = Except.error "El DataFrame está vacío" ∧
    analyzeTypology df = Except.error "El DataFrame está vacío" ∧
    analyzeSemantic df today = Except.error "El DataFrame está vacío" ∧
    analyzeGeospatial df = Except.error "El DataFrame está vacío" ∧
    analyzeAnonymization df = Except.error "El DataFrame está vacío" ∧
    analyzeMlReadiness oracle df = Except.error "El DataFrame está vacío" ∧
    runParallelAnalysis oracle today fail df filename flag =
      Except.error "El DataFrame está vacío" := by
  have he : df.isEmpty = true := by
    unfold Table.isEmpty
    rw [h]
    simp
  refine ⟨?_, ?_, ?_, ?_, ?_, ?_, ?_⟩
  · unfold analyzeCompleteness
    rw [if_pos he]
  · unfold analyzeTypology
    rw [if_pos he]
  · unfold analyzeSemantic
    rw [if_pos he]
  · unfold analyzeGeospatial
    rw [if_pos he]
  · unfold analyzeAnonymization
    rw [if_pos he]
  · unfold analyzeMlReadiness
    rw [if_pos he]
  · unfold runParallelAnalysis
    rw [if_pos he]

/-- Counterexample to C2's exception-class detail: on empty input the
completeness analyzer raises a plain `ValueError` — no `EmptyInputError`
class exists in the code. -/
theorem empty_input_error_class_mismatch :
    emptyInputErrorClass = "ValueError" ∧
    emptyInputErrorClass ≠ "EmptyInputError" ∧
    analyzeCompleteness emptyDemoTable =
      Except.error "El DataFrame está vacío" := by
  refine ⟨rfl, by decide, ?_⟩
  rfl

/-- Witness for C2 on a one-column, zero-row table. -/
theorem empty_table_fails_fast_witness :
    emptyDemoTable.nrows = 0 ∧
    analyzeCompleteness emptyDemoTable =
      Except.error "El DataFrame está vacío" ∧
    runParallelAnalysis zeroOracle demoToday (fun _ => none) emptyDemoTable
      "dataset.csv" true = Except.error "El DataFrame está vacío" :=
  have h := empty_table_fails_fast emptyDemoTable zeroOracle demoToday
    (fun _ => none) "dataset.csv" true (by decide)
  ⟨by decide, h.1, h.2.2.2.2.2.2⟩

/-! ## Claim theorems: orchestrator failure placeholders -/

theorem consolidate_collect_slot (oracle : StatsOracle) (today : SDate)
    (fail : String → Option AnalyzerFailure) (df : Table) (m : Metadata) :
    ∀ name ∈ analyzerNames,
      consolidatedSlot (consolidate m (collectResults oracle today fail df))
          name
        = some (slotAt oracle today fail df name) := by
  intro name hname
  simp only [analyzerNames, List.mem_cons, List.not_mem_nil, or_false] at hname
  rcases hname with rfl | rfl | rfl | rfl | rfl | rfl <;> rfl

theorem analyzeAnonymization_ok (df : Table) (hne : df.isEmpty = false) :
    ∃ ar, analyzeAnonymization df = Except.ok ar := by
  unfold analyzeAnonymization
  rw [if_neg (by simp [hne])]
  exact ⟨_, rfl⟩

theorem slotAt_anonymization_ok (oracle : StatsOracle) (today : SDate)
    (fail : String → Option AnalyzerFailure) (df : Table)
    (hf : fail "anonymization" = none) {ar : AnonymizationResult}
    (har : analyzeAnonymization df = Except.ok ar) :
    slotAt oracle today fail df "anonymization" =
      SlotValue.anonymization ar := by
  unfold slotAt
  rw [hf]
  show runOneAnalyzer oracle today df "anonymization" = _
  unfold runOneAnalyzer
  rw [if_neg (by decide), if_neg (by decide), if_neg (by decide),
    if_neg (by decide), if_pos rfl, har]

theorem runParallel_ok_form (oracle : StatsOracle) (today : SDate)
    (fail : String → Option AnalyzerFailure) (df : Table) (filename : String)
    (anonFlag : Bool) (hne : df.isEmpty = false)
    (hsafe : anonFlag = false ∨ fail "anonymization" = none) :
    ∃ dfa rep,
      runParallelAnalysis oracle today fail df filename anonFlag =
        Except.ok
          (consolidate
            { filename := filename, rows := df.nrows, columns := df.length,
              column_names := df.colNames, auto_anonymized := anonFlag }
            (collectResults oracle today fail df), dfa, rep) := by
  unfold runParallelAnalysis
  rw [if_neg (by simp [hne])]
  rcases hsafe with rfl | hf
  · exact ⟨df, none, rfl⟩
  · cases anonFlag with
    | false => exact ⟨df, none, rfl⟩
    | true =>
      obtain ⟨ar, har⟩ := analyzeAnonymization_ok df hne
      have hlk : (collectResults oracle today fail df).lookup "anonymization" =
          some (slotAt oracle today fail df "anonymization") := rfl
      have h2 : (collectResults oracle today fail df).lookup "anonymization" =
          some (SlotValue.anonymization ar) :=
        hlk.trans
          (congrArg some (slotAt_anonymization_ok oracle today fail df hf har))
      dsimp only
      rw [h2, if_pos (rfl : (true : Bool) = true)]
      simp only [anonymizeStep]
      by_cases hp : ar.summary.pii_detected = true
      · rw [if_pos hp]
        exact ⟨_, _, rfl⟩
      · rw [if_neg hp]
        exact ⟨df, none, rfl⟩

/-- **C1** (amended: the anonymization slot must not itself have failed
when `auto_anonymize` is on — see the counterexample for that case).
For every input table and every combination of analyzer failures
(exception or timeout in any subset of the six analyzers), the
consolidated structure returned by `run_parallel_analysis` carries all
six analyzer keys, and each failed analyzer's slot is
`_get_error_result`'s placeholder, whose summary has `error = true` and
which carries exactly one recommendation, of priority `critica`, naming
the failed analyzer. -/
theorem orchestrator_failure_placeholders (oracle : StatsOracle)
    (today : SDate) (fail : String → Option AnalyzerFailure) (df : Table)
    (filename : String) (anonFlag : Bool) (hne : df.isEmpty = false)
    (hsafe : anonFlag = false ∨ fail "anonymization" = none) :
    ∃ c dfa rep,
      runParallelAnalysis oracle today fail df filename anonFlag =
        Except.ok (c, dfa, rep) ∧
      (∀ name ∈ analyzerNames, ∃ s, consolidatedSlot c name = some s) ∧
      (∀ name ∈ analyzerNames, ∀ f, fail name = some f →
        consolidatedSlot c name =
          some (SlotValue.failed (getErrorResult name (failureMsg f))) ∧
        (getErrorResult name (failureMsg f)).summary.error = true ∧
        (getErrorResult name (failureMsg f)).recommendations.length = 1 ∧
        ∀ r ∈ (getErrorResult name (failureMsg f)).recommendations,
          r.priority = "critica" ∧
          r.issue = s!"Analizador {name} falló") := by
  obtain ⟨dfa, rep, hrun⟩ :=
    runParallel_ok_form oracle today fail df filename anonFlag hne hsafe
  refine ⟨_, dfa, rep, hrun, ?_, ?_⟩
  · intro name hname
    exact ⟨_, consolidate_collect_slot oracle today fail df _ name hname⟩
  · intro name hname f hfail
    have hs := consolidate_collect_slot oracle today fail df
      { filename := filename, rows := df.nrows, columns := df.length,
        column_names := df.colNames, auto_anonymized := anonFlag } name hname
    refine ⟨?_, rfl, rfl, ?_⟩
    · rw [hs]
      unfold slotAt
      rw [hfail]
    · intro r hr
      simp only [getErrorResult, List.mem_singleton] at hr
      subst hr
      exact ⟨rfl, rfl⟩

/-- Witness for C1: a run over a two-column table in which the semantic
analyzer times out; its slot is the error placeholder. -/
theorem orchestrator_failure_placeholders_witness :
    mixedDemoTable.isEmpty = false ∧
    ∃ c dfa rep,
      runParallelAnalysis zeroOracle demoToday
          (fun n => if n = "semantic" then some AnalyzerFailure.timeout
            else none)
          mixedDemoTable "dataset.csv" false = Except.ok (c, dfa, rep) ∧
      consolidatedSlot c "semantic" =
        some (SlotValue.failed (getErrorResult "semantic" "timeout")) := by
  refine ⟨by decide, ?_⟩
  obtain ⟨c, dfa, rep, hrun, -, hfailed⟩ :=
    orchestrator_failure_placeholders zeroOracle demoToday
      (fun n => if n = "semantic" then some AnalyzerFailure.timeout else none)
      mixedDemoTable "dataset.csv" false (by decide) (Or.inl rfl)
  refine ⟨c, dfa, rep, hrun, ?_⟩
  exact (hfailed "semantic" (by decide) AnalyzerFailure.timeout rfl).1

/-- Counterexample to C1 as stated: when the anonymization analyzer is in
the failed subset and `auto_anonymize` is on (its default), the
orchestrator crashes — `anon_result["summary"]["pii_detected"]` raises a
`KeyError` on the error placeholder — instead of returning a consolidated
structure. -/
theorem orchestrator_anonymization_failure_crash :
    runParallelAnalysis zeroOracle demoToday
        (fun n => if n = "anonymization" then
          some (AnalyzerFailure.exn "boom") else none)
        mixedDemoTable "dataset.csv" true =
      Except.error "KeyError: \x27pii_detected\x27" := by
  rfl

/-! ## Claim theorems: anonymizer column preservation -/

theorem anonymizeStep_table (df : Table) (slot : Option SlotValue)
    (p : Table × Option AnonReport) (h : anonymizeStep df slot = Except.ok p) :
    p.1 = df ∨ ∃ pii, p.1 = (anonymizeDataframe df pii "mask").1 := by
  match slot with
  | none =>
    simp only [anonymizeStep, Except.ok.injEq] at h
    left
    rw [← h]
  | some (SlotValue.anonymization ar) =>
    simp only [anonymizeStep] at h
    split_ifs at h with hp
    · simp only [Except.ok.injEq] at h
      right
      exact ⟨ar.columns_with_pii, by rw [← h]⟩
    · simp only [Except.ok.injEq] at h
      left
      rw [← h]
  | some (SlotValue.failed e) =>
    simp only [anonymizeStep] at h
    cases h
  | some (SlotValue.completeness r) =>
    simp only [anonymizeStep, Except.ok.injEq] at h
    left
    rw [← h]
  | some (SlotValue.typology r) =>
    simp only [anonymizeStep, Except.ok.injEq] at h
    left
    rw [← h]
  | some (SlotValue.semantic r) =>
    simp only [anonymizeStep, Except.ok.injEq] at h
    left
    rw [← h]
  | some (SlotValue.geospatial r) =>
    simp only [anonymizeStep, Except.ok.injEq] at h
    left
    rw [← h]
  | some (SlotValue.ml r) =>
    simp only [anonymizeStep, Except.ok.injEq] at h
    left
    rw [← h]

/-- **C9.** `anonymize_dataframe` keeps every column whose name is not in
the PII list, with its values unchanged (and, the model being pure, the
caller's table itself is never mutated — the function works on a fresh
copy by construction); in the orchestrator, the consolidated results are
computed from the original table, and the returned dataframe is either
that original or the anonymizer's output on it with the orchestrator's
`"mask"` strategy — no analyzer receives a modified table. -/
theorem anonymize_preserves_non_pii :
    (∀ (df : Table) (pii : List String) (strategy : String)
        (e : String × List CellValue), e ∈ df → e.1 ∉ pii →
        e ∈ (anonymizeDataframe df pii strategy).1) ∧
    (∀ (oracle : StatsOracle) (today : SDate)
        (fail : String → Option AnalyzerFailure) (df : Table)
        (filename : String) (flag : Bool) (c : Consolidated) (dfa : Table)
        (rep : Option AnonReport),
        runParallelAnalysis oracle today fail df filename flag =
          Except.ok (c, dfa, rep) →
        c = consolidate
            { filename := filename, rows := df.nrows, columns := df.length,
              column_names := df.colNames, auto_anonymized := flag }
            (collectResults oracle today fail df) ∧
        (dfa = df ∨ ∃ pii, dfa = (anonymizeDataframe df pii "mask").1)) := by
  constructor
  · intro df pii strategy e he hnin
    exact anonFold_preserves strategy pii (df, []) e he hnin
  · intro oracle today fail df filename flag c dfa rep h
    unfold runParallelAnalysis at h
    by_cases hbe : df.isEmpty = true
    · rw [if_pos hbe] at h
      cases h
    · rw [if_neg hbe] at h
      dsimp only at h
      cases flag with
      | false =>
        simp only [Bool.false_eq_true, if_false, Except.ok.injEq,
          Prod.mk.injEq] at h
        exact ⟨h.1.symm, Or.inl h.2.1.symm⟩
      | true =>
        rw [if_pos (rfl : (true : Bool) = true)] at h
        cases hstep : anonymizeStep df
            ((collectResults oracle today fail df).lookup "anonymization") with
        | error m =>
          rw [hstep] at h
          cases h
        | ok p =>
          rw [hstep] at h
          simp only [Except.ok.injEq, Prod.mk.injEq] at h
          refine ⟨h.1.symm, ?_⟩
          rw [← h.2.1]
          exact anonymizeStep_table df _ p hstep

/-- Witness for C9: the non-PII `edad` column survives masking of
`nombre` unchanged, and a concrete orchestrator run returns results
consolidated from the original table. -/
theorem anonymize_preserves_non_pii_witness :
    ("edad", [CellValue.num 34, CellValue.num 45]) ∈
      (anonymizeDataframe mixedDemoTable ["nombre"] "mask").1 ∧
    ∃ c dfa rep,
      runParallelAnalysis zeroOracle demoToday (fun _ => none) mixedDemoTable
          "dataset.csv" true = Except.ok (c, dfa, rep) ∧
      c = consolidate
          { filename := "dataset.csv", rows := mixedDemoTable.nrows,
            columns := mixedDemoTable.length,
            column_names := mixedDemoTable.colNames, auto_anonymized := true }
          (collectResults zeroOracle demoToday (fun _ => none)
            mixedDemoTable) ∧
      (dfa = mixedDemoTable ∨
        ∃ pii, dfa = (anonymizeDataframe mixedDemoTable pii "mask").1) := by
  constructor
  · exact anonymize_preserves_non_pii.1 mixedDemoTable ["nombre"] "mask"
      ("edad", [CellValue.num 34, CellValue.num 45]) (by decide) (by decide)
  · obtain ⟨dfa, rep, hrun⟩ := runParallel_ok_form zeroOracle demoToday
      (fun _ => none) mixedDemoTable "dataset.csv" true (by decide) (Or.inr rfl)
    obtain ⟨h1, h2⟩ := anonymize_preserves_non_pii.2 zeroOracle demoToday
      (fun _ => none) mixedDemoTable "dataset.csv" true _ dfa rep hrun
    exact ⟨_, dfa, rep, hrun, h1, h2⟩

end SDC
